import Mathlib

/-!
# ginny-redis: DSN resolution (`config.go`)

A shallow embedding of `NewConfigByDSN` together with the parts of the Go
standard library it calls (`strings.Split`, `strconv.Atoi`, `net/url`).

Conventions.
* A Go `string` is a byte sequence.  It is represented by a Lean `String`
  in which every character stands for one byte (the byte `b` is the
  character with code point `b`); ASCII text is therefore written as usual.
* A Go slice `[]T` is `Option (List T)`: `none` is the `nil` slice and
  `some xs` a non-nil slice holding `xs`.
* Go `int` is the 64-bit signed integer type; values are carried as `Int`
  and every place where the library checks the range does so explicitly.
* Library functions that return `(value, error)` and whose value is never
  read next to a non-nil error are modelled with `Except`.
* `net/url` and `strconv` follow the Go standard library (Go 1.17 to 1.22:
  a query piece holding a semicolon is dropped, not split).
* `pkg/errors` follows v0.9: `Wrap` returns a `withStack` layer around a
  `withMessage` layer, and both layers have `Unwrap` and `Cause`.  The call
  stack that `Wrap` reads from the runtime is an explicit argument.
-/

namespace redis

/-- Go slice: `none` is `nil`. -/
abbrev Slice (α : Type) := Option (List α)

/-- Go `len` on a slice. -/
def Slice.len {α : Type} : Slice α → Nat
  | none => 0
  | some xs => xs.length

/-- Go `append(s, t...)`: appending nothing to `nil` leaves `nil`. -/
def Slice.append {α : Type} : Slice α → Slice α → Slice α
  | none, none => none
  | none, some [] => none
  | none, some (x :: xs) => some (x :: xs)
  | some ys, none => some ys
  | some ys, some xs => some (ys ++ xs)

/-! ## package strings -/

namespace strings

/-- Splitting of a byte list at every occurrence of the byte `sep`; `cur`
holds the bytes of the piece being read, in reverse. -/
def splitLoop (sep : Char) : List Char → List Char → List (List Char)
  | [], cur => [cur.reverse]
  | c :: cs, cur =>
    if c = sep then cur.reverse :: splitLoop sep cs []
    else splitLoop sep cs (c :: cur)

/-- Go `strings.Split(s, sep)` for a separator of one byte, the only way
the package calls it (`","`).  The result always has `Count(s, sep) + 1`
elements and is never `nil`. -/
def Split (s : String) (sep : Char) : Slice String :=
  some ((splitLoop sep s.data []).map String.mk)

/-- Go `strings.Cut(s, sep)` for a separator of one byte, on byte lists:
the text before the first `sep`, the text after it, and whether `sep`
occurs. -/
def cut (sep : Char) : List Char → List Char × List Char × Bool
  | [] => ([], [], false)
  | c :: cs =>
    if c = sep then ([], cs, true)
    else
      let r := cut sep cs
      (c :: r.1, r.2.1, r.2.2)

/-- Go `strings.LastIndex(s, sep)` for a separator of one byte; `none` is
Go's `-1`. -/
def lastIndex (sep : Char) : List Char → Option Nat
  | [] => none
  | c :: cs =>
    match lastIndex sep cs with
    | some i => some (i + 1)
    | none => if c = sep then some 0 else none

/-- Go `strings.Index(s, sub)` on byte lists; `none` is Go's `-1`. -/
def index (sub : List Char) : List Char → Option Nat
  | [] => if sub = [] then some 0 else none
  | c :: cs =>
    if sub.isPrefixOf (c :: cs) then some 0
    else (index sub cs).map (· + 1)

end strings

/-! ## package strconv -/

namespace strconv

/-- The two sentinel errors `strconv.ErrSyntax` and `strconv.ErrRange`. -/
inductive ErrKind
  | ErrSyntax
  | ErrRange
  deriving DecidableEq, Repr

/-- Go `strconv.NumError`. -/
structure NumError where
  Func : String
  Num : String
  Err : ErrKind
  deriving DecidableEq, Repr

/-- Go `strconv.IntSize` (64-bit platform). -/
def intSize : Nat := 64

/-- Is the byte an ASCII decimal digit. -/
def isDigit (c : Char) : Bool := decide ('0' ≤ c) && decide (c ≤ '9')

/-- Value of an ASCII decimal digit (`c - '0'`). -/
def digitVal (c : Char) : Nat := c.toNat - '0'.toNat

/-- The loop of `strconv.ParseUint(s, 10, 0)`: `n` is the `uint64`
accumulator, `cutoff = maxUint64/10 + 1`, `maxVal = 1<<64 - 1`. -/
def parseUintLoop (cutoff maxVal : Nat) : List Char → Nat → Except ErrKind Nat
  | [], n => .ok n
  | c :: cs, n =>
    if isDigit c then
      if n ≥ cutoff then .error .ErrRange
      else
        let n10 := (n * 10) % 2 ^ 64
        let n1 := (n10 + digitVal c) % 2 ^ 64
        if n1 < n10 ∨ n1 > maxVal then .error .ErrRange
        else parseUintLoop cutoff maxVal cs n1
    else .error .ErrSyntax

/-- Go `strconv.ParseUint(s, 10, 0)`: only the kind of the error is kept,
`ParseInt` and `Atoi` overwrite the other fields. -/
def ParseUint (s : List Char) : Except ErrKind Nat :=
  if s = [] then .error .ErrSyntax
  else parseUintLoop ((2 ^ 64 - 1) / 10 + 1) (2 ^ intSize - 1) s 0

/-- The range test that ends `ParseInt`: `un` is the magnitude read by
`ParseUint` and `cutoff = 1 << (bitSize-1)`. -/
def parseIntRange (s : String) (neg : Bool) (un : Nat) : Except NumError Int :=
  let cutoff : Nat := 2 ^ (intSize - 1)
  if neg = false ∧ un ≥ cutoff then .error ⟨"ParseInt", s, .ErrRange⟩
  else if neg = true ∧ un > cutoff then .error ⟨"ParseInt", s, .ErrRange⟩
  else if neg = true then .ok (-(un : Int))
  else .ok (un : Int)

/-- Go `strconv.ParseInt(s, 10, 0)`, with the error already carrying the
original text `s`.  A range error of `ParseUint` is not returned at once:
`ParseUint` then hands back the saturated value `maxVal`, which fails the
range test. -/
def ParseInt (s : String) : Except NumError Int :=
  match s.data with
  | [] => .error ⟨"ParseInt", s, .ErrSyntax⟩
  | c :: cs =>
    let neg : Bool := decide (c = '-')
    let body : List Char := if c = '+' ∨ c = '-' then cs else c :: cs
    match ParseUint body with
    | .error .ErrSyntax => .error ⟨"ParseInt", s, .ErrSyntax⟩
    | .error .ErrRange => parseIntRange s neg (2 ^ intSize - 1)
    | .ok un => parseIntRange s neg un

/-- The digit loop of the fast path of `Atoi`; the accumulator cannot
overflow, the text having fewer than 19 bytes. -/
def atoiLoop : List Char → Int → Option Int
  | [], n => some n
  | c :: cs, n =>
    if isDigit c then atoiLoop cs (n * 10 + (digitVal c : Int))
    else none

/-- The fast path of `Atoi`, taken for a text of 1 to 18 bytes (the empty
text never reaches it). -/
def atoiFast (s : String) : Except NumError Int :=
  match s.data with
  | [] => .error ⟨"Atoi", s, .ErrSyntax⟩
  | c :: cs =>
    let body : List Char := if c = '-' ∨ c = '+' then cs else c :: cs
    if body.length < 1 then .error ⟨"Atoi", s, .ErrSyntax⟩
    else
      match atoiLoop body 0 with
      | none => .error ⟨"Atoi", s, .ErrSyntax⟩
      | some n => if c = '-' then .ok (-n) else .ok n

/-- Go `strconv.Atoi(s)`. -/
def Atoi (s : String) : Except NumError Int :=
  let sLen := s.length
  if (intSize = 32 ∧ (0 < sLen ∧ sLen < 10)) ∨ (intSize = 64 ∧ (0 < sLen ∧ sLen < 19)) then
    atoiFast s
  else
    match ParseInt s with
    | .error e => .error ⟨"Atoi", e.Num, e.Err⟩
    | .ok i => .ok i

end strconv

/-! ## package net/url -/

namespace url

/-- The errors `net/url` wraps into `url.Error` while parsing. -/
inductive ParseErr
  /-- Error "net/url: invalid control character in URL". -/
  | invalidControlCharacter
  /-- Error "missing protocol scheme". -/
  | missingProtocolScheme
  /-- Error "first path segment in URL cannot contain colon". -/
  | firstPathSegmentColon
  /-- Error "net/url: invalid userinfo". -/
  | invalidUserinfo
  /-- Error "missing ']' in host". -/
  | missingBracket
  /-- Error "invalid port ... after host". -/
  | invalidPort (colonPort : String)
  /-- Go `url.EscapeError`. -/
  | EscapeError (s : String)
  /-- Go `url.InvalidHostError`. -/
  | InvalidHostError (s : String)
  deriving DecidableEq, Repr

/-- Go `url.Error`. -/
structure Error where
  Op : String
  URL : String
  Err : ParseErr
  deriving DecidableEq, Repr

/-- Go `url.Userinfo`. -/
structure Userinfo where
  username : String
  password : String
  passwordSet : Bool
  deriving DecidableEq, Repr

/-- Go `url.URL`, without `RawPath` and `RawFragment` (encoding hints that
parsing only writes). -/
structure URL where
  Scheme : String := ""
  Opaque : String := ""
  User : Option Userinfo := none
  Host : String := ""
  Path : String := ""
  ForceQuery : Bool := false
  RawQuery : String := ""
  Fragment : String := ""
  OmitHost : Bool := false
  deriving DecidableEq, Repr

/-- The escaping modes of `net/url`. -/
inductive encoding
  | encodePath
  | encodePathSegment
  | encodeHost
  | encodeZone
  | encodeUserPassword
  | encodeQueryComponent
  | encodeFragment
  deriving DecidableEq, Repr

open encoding

/-- Is the byte an ASCII letter or digit. -/
def isAlnum (c : Char) : Bool :=
  (decide ('a' ≤ c) && decide (c ≤ 'z')) || (decide ('A' ≤ c) && decide (c ≤ 'Z')) ||
    (decide ('0' ≤ c) && decide (c ≤ '9'))

/-- Go `ishex`. -/
def ishex (c : Char) : Bool :=
  (decide ('0' ≤ c) && decide (c ≤ '9')) || (decide ('a' ≤ c) && decide (c ≤ 'f')) ||
    (decide ('A' ≤ c) && decide (c ≤ 'F'))

/-- Go `unhex`. -/
def unhex (c : Char) : Nat :=
  if decide ('0' ≤ c) && decide (c ≤ '9') then c.toNat - '0'.toNat
  else if decide ('a' ≤ c) && decide (c ≤ 'f') then c.toNat - 'a'.toNat + 10
  else if decide ('A' ≤ c) && decide (c ≤ 'F') then c.toNat - 'A'.toNat + 10
  else 0

/-- Go `shouldEscape(c, mode)`. -/
def shouldEscape (c : Char) (mode : encoding) : Bool :=
  if isAlnum c then false
  else if (mode = encodeHost ∨ mode = encodeZone) ∧
      c ∈ ['!', '$', '&', '\'', '(', ')', '*', '+', ',', ';', '=', ':', '[', ']', '<', '>', '"']
    then false
  else if c ∈ ['-', '_', '.', '~'] then false
  else if c ∈ ['$', '&', '+', ',', '/', ':', ';', '=', '?', '@'] ∧
      mode = encodePath then decide (c = '?')
  else if c ∈ ['$', '&', '+', ',', '/', ':', ';', '=', '?', '@'] ∧
      mode = encodePathSegment then
    decide (c = '/') || decide (c = ';') || decide (c = ',') || decide (c = '?')
  else if c ∈ ['$', '&', '+', ',', '/', ':', ';', '=', '?', '@'] ∧
      mode = encodeUserPassword then
    decide (c = '@') || decide (c = '/') || decide (c = '?') || decide (c = ':')
  else if c ∈ ['$', '&', '+', ',', '/', ':', ';', '=', '?', '@'] ∧
      mode = encodeQueryComponent then true
  else if c ∈ ['$', '&', '+', ',', '/', ':', ';', '=', '?', '@'] ∧
      mode = encodeFragment then false
  else if mode = encodeFragment ∧ c ∈ ['!', '(', ')', '*'] then false
  else true

/-- First loop of `unescape`: checks that every `%` starts a well-formed
escape and that a host holds no byte it may not hold.  `none` means the
text is accepted. -/
def unescapeCheck (mode : encoding) : List Char → Option ParseErr
  | [] => none
  | c :: cs =>
    if c = '%' then
      match cs with
      | a :: b :: rest =>
        if !ishex a ∨ !ishex b then some (.EscapeError (String.mk [c, a, b]))
        else if mode = encodeHost ∧ unhex a < 8 ∧ [c, a, b] ≠ ['%', '2', '5'] then
          some (.EscapeError (String.mk [c, a, b]))
        else if mode = encodeZone ∧ [c, a, b] ≠ ['%', '2', '5'] ∧
            unhex a * 16 + unhex b ≠ ' '.toNat ∧
            shouldEscape (Char.ofNat (unhex a * 16 + unhex b)) encodeHost then
          some (.EscapeError (String.mk [c, a, b]))
        else unescapeCheck mode rest
      | short => some (.EscapeError (String.mk (c :: short)))
    else if c = '+' then unescapeCheck mode cs
    else if (mode = encodeHost ∨ mode = encodeZone) ∧ c.toNat < 0x80 ∧
        shouldEscape c encodeHost then
      some (.InvalidHostError (String.mk [c]))
    else unescapeCheck mode cs

/-- Second loop of `unescape`: decodes an accepted text. -/
def unescapeDecode (mode : encoding) : List Char → List Char
  | [] => []
  | c :: cs =>
    if c = '%' then
      match cs with
      | a :: b :: rest => Char.ofNat (unhex a * 16 + unhex b) :: unescapeDecode mode rest
      | short => c :: short
    else if c = '+' then
      (if mode = encodeQueryComponent then ' ' else '+') :: unescapeDecode mode cs
    else c :: unescapeDecode mode cs

/-- Go `unescape(s, mode)`. -/
def unescape (s : List Char) (mode : encoding) : Except ParseErr (List Char) :=
  match unescapeCheck mode s with
  | some e => .error e
  | none => .ok (unescapeDecode mode s)

/-- Go `url.QueryUnescape`. -/
def QueryUnescape (s : List Char) : Except ParseErr (List Char) :=
  unescape s encodeQueryComponent

/-- Go `stringContainsCTLByte`. -/
def stringContainsCTLByte (s : List Char) : Bool :=
  s.any fun b => decide (b < ' ') || decide (b.toNat = 0x7f)

/-- Go `getScheme`: the scheme and the rest of the text; `i` is the index
of the byte being read and `acc` the bytes read so far, in reverse. -/
def getSchemeLoop (rawURL : List Char) : List Char → Nat → List Char →
    Except ParseErr (List Char × List Char)
  | [], _, _ => .ok ([], rawURL)
  | c :: cs, i, acc =>
    if (decide ('a' ≤ c) && decide (c ≤ 'z')) || (decide ('A' ≤ c) && decide (c ≤ 'Z')) then
      getSchemeLoop rawURL cs (i + 1) (c :: acc)
    else if (decide ('0' ≤ c) && decide (c ≤ '9')) || c = '+' || c = '-' || c = '.' then
      if i = 0 then .ok ([], rawURL) else getSchemeLoop rawURL cs (i + 1) (c :: acc)
    else if c = ':' then
      if i = 0 then .error .missingProtocolScheme else .ok (acc.reverse, cs)
    else .ok ([], rawURL)

/-- Go `getScheme`. -/
def getScheme (rawURL : List Char) : Except ParseErr (List Char × List Char) :=
  getSchemeLoop rawURL rawURL 0 []

/-- ASCII lower-casing, which is what `strings.ToLower` does on a scheme
(letters, digits, `+`, `-` and `.` only). -/
def toLower (s : List Char) : List Char :=
  s.map fun c => if decide ('A' ≤ c) && decide (c ≤ 'Z') then Char.ofNat (c.toNat + 32) else c

/-- Go `validOptionalPort`. -/
def validOptionalPort (port : List Char) : Bool :=
  match port with
  | [] => true
  | c :: cs => decide (c = ':') && cs.all fun b => decide ('0' ≤ b) && decide (b ≤ '9')

/-- Go `validUserinfo`: ranging over runes, every byte outside ASCII is
refused. -/
def validUserinfo (s : List Char) : Bool :=
  s.all fun r => isAlnum r ||
    decide (r ∈ ['-', '.', '_', ':', '~', '!', '$', '&', '\'', '(', ')', '*', '+', ',', ';',
      '=', '%', '@'])

/-- Go `parseHost`. -/
def parseHost (host : List Char) : Except ParseErr (List Char) :=
  if host.head? = some '[' then
    match strings.lastIndex ']' host with
    | none => .error .missingBracket
    | some i =>
      let colonPort := host.drop (i + 1)
      if !validOptionalPort colonPort then .error (.invalidPort (String.mk colonPort))
      else
        match strings.index ['%', '2', '5'] (host.take i) with
        | some zone =>
          match unescape (host.take zone) encodeHost with
          | .error e => .error e
          | .ok host1 =>
            match unescape ((host.take i).drop zone) encodeZone with
            | .error e => .error e
            | .ok host2 =>
              match unescape (host.drop i) encodeHost with
              | .error e => .error e
              | .ok host3 => .ok (host1 ++ host2 ++ host3)
        | none => unescape host encodeHost
  else
    match strings.lastIndex ':' host with
    | some i =>
      let colonPort := host.drop i
      if !validOptionalPort colonPort then .error (.invalidPort (String.mk colonPort))
      else unescape host encodeHost
    | none => unescape host encodeHost

/-- Go `parseAuthority`. -/
def parseAuthority (authority : List Char) : Except ParseErr (Option Userinfo × List Char) :=
  let i := strings.lastIndex '@' authority
  let hostText := match i with
    | none => authority
    | some i => authority.drop (i + 1)
  match parseHost hostText with
  | .error e => .error e
  | .ok host =>
    match i with
    | none => .ok (none, host)
    | some i =>
      let userinfo := authority.take i
      if !validUserinfo userinfo then .error .invalidUserinfo
      else if !userinfo.contains ':' then
        match unescape userinfo encodeUserPassword with
        | .error e => .error e
        | .ok name => .ok (some ⟨String.mk name, "", false⟩, host)
      else
        let c := strings.cut ':' userinfo
        match unescape c.1 encodeUserPassword with
        | .error e => .error e
        | .ok username =>
          match unescape c.2.1 encodeUserPassword with
          | .error e => .error e
          | .ok password => .ok (some ⟨String.mk username, String.mk password, true⟩, host)

/-- Go `parse(rawURL, viaRequest)` with `viaRequest = false`, as `Parse`
calls it. -/
def parse (rawURL : List Char) : Except ParseErr URL :=
  if stringContainsCTLByte rawURL then .error .invalidControlCharacter
  else if rawURL = ['*'] then .ok { Path := "*" }
  else
    match getScheme rawURL with
    | .error e => .error e
    | .ok (scheme, rest) =>
      let scheme := toLower scheme
      let forceQuery : Bool := rest.getLast? = some '?' ∧ rest.count '?' = 1
      let rest' : List Char := if forceQuery then rest.dropLast else (strings.cut '?' rest).1
      let rawQuery : List Char := if forceQuery then [] else (strings.cut '?' rest).2.1
      if rest'.head? ≠ some '/' ∧ scheme ≠ [] then
        .ok { Scheme := String.mk scheme, ForceQuery := forceQuery,
              RawQuery := String.mk rawQuery, Opaque := String.mk rest' }
      else if rest'.head? ≠ some '/' ∧ (strings.cut '/' rest').1.contains ':' then
        .error .firstPathSegmentColon
      else if (scheme ≠ [] ∨ ¬ ['/', '/', '/'].isPrefixOf rest') ∧ ['/', '/'].isPrefixOf rest' then
        let afterSlashes := rest'.drop 2
        let authority := match strings.index ['/'] afterSlashes with
          | some i => afterSlashes.take i
          | none => afterSlashes
        let path := match strings.index ['/'] afterSlashes with
          | some i => afterSlashes.drop i
          | none => []
        match parseAuthority authority with
        | .error e => .error e
        | .ok (user, host) =>
          match unescape path encodePath with
          | .error e => .error e
          | .ok p =>
            .ok { Scheme := String.mk scheme, ForceQuery := forceQuery,
                  RawQuery := String.mk rawQuery, User := user, Host := String.mk host,
                  Path := String.mk p }
      else
        match unescape rest' encodePath with
        | .error e => .error e
        | .ok p =>
          .ok { Scheme := String.mk scheme, ForceQuery := forceQuery,
                RawQuery := String.mk rawQuery, Path := String.mk p,
                OmitHost := decide (scheme ≠ [] ∧ rest'.head? = some '/') }

/-- Go `url.Parse`. -/
def Parse (rawURL : String) : Except Error URL :=
  let c := strings.cut '#' rawURL.data
  match parse c.1 with
  | .error err => .error ⟨"parse", String.mk c.1, err⟩
  | .ok url =>
    if c.2.1 = [] then .ok url
    else
      match unescape c.2.1 encodeFragment with
      | .error err => .error ⟨"parse", rawURL, err⟩
      | .ok frag => .ok { url with Fragment := String.mk frag }

/-- Go `url.Values`, a map from a key to the list of its values.  The map
is represented by the list of its `(key, value)` entries in the order in
which `parseQuery` appends them, so `v[key]` is the list of the values
paired with `key`, in order. -/
abbrev Values := List (String × String)

/-- Go `Values.Get`: the first value of the key, or `""`. -/
def Values.Get (v : Values) (key : String) : String :=
  match v.find? (fun kv => kv.1 = key) with
  | some kv => kv.2
  | none => ""

/-- One round of the loop of `parseQuery`, on the piece `key` cut off at
`&`: a piece with a semicolon, an empty piece and a piece whose key or
value does not unescape add nothing. -/
def parseQueryPiece (m : Values) (key : List Char) : Values :=
  if key.contains ';' then m
  else if key = [] then m
  else
    let c := strings.cut '=' key
    match QueryUnescape c.1 with
    | .error _ => m
    | .ok key1 =>
      match QueryUnescape c.2.1 with
      | .error _ => m
      | .ok value => m ++ [(String.mk key1, String.mk value)]

/-- Go `parseQuery`, the error dropped as `URL.Query` drops it.  The loop
`for query != ""` cuts the query at each `&`; the pieces it visits are
those of the split at `&` (a trailing empty piece is skipped either way). -/
def parseQuery (query : List Char) : Values :=
  (strings.splitLoop '&' query []).foldl parseQueryPiece []

/-- Go `URL.Query`: `ParseQuery(u.RawQuery)` with the error ignored. -/
def URL.Query (u : URL) : Values := parseQuery u.RawQuery.data

end url

/-! ## package context -/

namespace context

/-- Go `context.Context`: `NewConfigByDSN` receives one and never reads it. -/
inductive Context
  | Background
  | TODO
  | WithValue (parent : Context) (key : String) (val : String)
  deriving DecidableEq, Repr

end context

/-! ## config.go -/

/-- Go `Sentinel`. -/
structure Sentinel where
  MasterName : String := ""
  SentinelAddrs : Slice String := none
  SentinelPassword : String := ""
  deriving DecidableEq, Repr

/-- Go `ClusterSlotAddr`. -/
structure ClusterSlotAddr where
  Master : String := ""
  Slaves : Slice String := none
  deriving DecidableEq, Repr

/-- Go `Cluster`. -/
structure Cluster where
  ClusterAddrs : Slice String := none
  MaxRedirects : Int := 0
  ClusterSlotAddrs : Slice ClusterSlotAddr := none
  deriving DecidableEq, Repr

/-- Go `Standalone`. -/
structure Standalone where
  Master : String := ""
  Slaves : Slice String := none
  deriving DecidableEq, Repr

/-- Go `Config`; the default of every field is its Go zero value, so `{}`
is what `new(Config)` points to. -/
structure Config where
  Username : String := ""
  Password : String := ""
  DB : Int := 0
  PoolSize : Int := 0
  MinIdleConns : Int := 0
  IdleTimeout : Int := 0
  IdleCheckFrequency : Int := 0
  MaxConnAge : Int := 0
  PoolTimeout : Int := 0
  DialTimeout : Int := 0
  ReadTimeout : Int := 0
  WriteTimeout : Int := 0
  RouteByLatency : Bool := false
  RouteRandomly : Bool := false
  Sentinel : Sentinel := {}
  Cluster : Cluster := {}
  Standalone : Standalone := {}
  deriving DecidableEq, Repr

/-- Go `error` as `NewConfigByDSN` returns it: a `*url.Error` or a
`*strconv.NumError`. -/
inductive GoError
  | url (e : url.Error)
  | num (e : strconv.NumError)
  deriving DecidableEq, Repr

set_option linter.unusedVariables false in
/-- Go `NewConfigByDSN` (config.go, lines 104-158).  The result is the pair
`(*Config, error)`, `none` standing for `nil`. -/
def NewConfigByDSN (ctx : context.Context) (dsn : String) : Option Config × Option GoError :=
  let o : Config := {}
  match url.Parse dsn with
  | .error err => (none, some (.url err))
  | .ok u =>
    let err : Option GoError := none
    let q := u.Query
    let db := q.Get "db"
    let db := if db = "" then "0" else db
    match strconv.Atoi db with
    | .error err => (none, some (.num err))
    | .ok dbNum =>
      let o := { o with DB := dbNum }
      let o := { o with Username := q.Get "username" }
      let o := { o with Password := q.Get "password" }
      let sentinel_addrs := q.Get "sentinel_addrs"
      let cluster_addrs := q.Get "cluster_addrs"
      if sentinel_addrs ≠ "" then
        let o := { o with Sentinel := {
          MasterName := q.Get "master_name"
          SentinelAddrs := strings.Split sentinel_addrs ','
          SentinelPassword := o.Password } }
        (some o, err)
      else if cluster_addrs ≠ "" then
        let max_redirects := q.Get "max_redirects"
        let max_redirects := if max_redirects = "" then "1" else max_redirects
        match strconv.Atoi max_redirects with
        | .error err => (none, some (.num err))
        | .ok maxRedirects =>
          let o := { o with Cluster := {
            ClusterAddrs := strings.Split cluster_addrs ','
            MaxRedirects := maxRedirects } }
          (some o, err)
      else
        let slaves := q.Get "slaves"
        let slaveAddrs : Slice String := some []
        let o := { o with Standalone := { Master := u.Host } }
        let slaveAddrs :=
          if slaves ≠ "" then slaveAddrs.append (strings.Split slaves ',') else slaveAddrs
        let o := { o with Standalone := { o.Standalone with Slaves := slaveAddrs } }
        (some o, err)

/-! ## package strings, used to state the claims -/

namespace strings

/-- The loop of Go `strings.Join`: every further element is written after
a copy of the separator. -/
def joinLoop (sep : List Char) : List (List Char) → List Char
  | [] => []
  | s :: rest => sep ++ s ++ joinLoop sep rest

/-- Go `strings.Join(elems, sep)`. -/
def Join (elems : List String) (sep : String) : String :=
  match elems with
  | [] => ""
  | e :: rest => String.mk (e.data ++ joinLoop sep.data (rest.map String.data))

/-- Go `strings.Count(s, sep)` for a separator of one byte. -/
def Count (s : String) (sep : Char) : Nat := s.data.count sep

end strings

/-! ## package github.com/pkg/errors -/

namespace errors

/-- One entry of a recorded call stack: the function, file and line a
program counter resolves to. -/
structure Frame where
  Func : String
  File : String
  Line : Nat
  deriving DecidableEq, Repr

/-- Go `error` values on the path of `NewConfig`: an error raised by the
configuration reader, and the two layers of `pkg/errors`, `withMessage`
(a cause and a message) and `withStack` (an error and the call stack
recorded when it was wrapped). -/
inductive Err
  | cause (message : String)
  | withMessage (cause : Err) (msg : String)
  | withStack (error : Err) (stack : List Frame)
  deriving DecidableEq, Repr

/-- Go `Error()`: `withMessage` prints its message, `": "` and the text of
its cause; `withStack` prints the text of the error it holds. -/
def Err.Error : Err → String
  | .cause m => m
  | .withMessage c m => m ++ ": " ++ c.Error
  | .withStack e _ => e.Error

/-- Go `Unwrap()`: `withStack` gives the error it holds, `withMessage` its
cause; an error of the reader has no such method. -/
def Err.Unwrap : Err → Option Err
  | .cause _ => none
  | .withMessage c _ => some c
  | .withStack e _ => some e

/-- Go `errors.Cause(err)`: follows `Cause()` through every layer of
`pkg/errors` down to the first error that is not one. -/
def Cause : Err → Err
  | .cause m => .cause m
  | .withMessage c _ => Cause c
  | .withStack e _ => Cause e

/-- Go `callers()`: the call stack read by `runtime.Callers(3, ...)`, at
most 32 entries, starting at the caller of `Wrap`.  `site` is the program
point of the call of `Wrap` and `pcs` the stack of the callers of the
function that makes it. -/
def callers (site : Frame) (pcs : List Frame) : List Frame := (site :: pcs).take 32

/-- Go `errors.Wrap(err, message)`: `nil` for a `nil` error, otherwise
`withStack` around `withMessage`.  The call stack `callers()` reads from
the runtime is passed in as `site` and `pcs`. -/
def Wrap (err : Option Err) (message : String) (site : Frame) (pcs : List Frame) :
    Option Err :=
  match err with
  | none => none
  | some e => some (.withStack (.withMessage e message) (callers site pcs))

end errors

/-! ## package github.com/spf13/viper -/

namespace viper

/-- Go `*viper.Viper`, as far as `NewConfig` uses it: `UnmarshalKey key o`
is the Config that `rawVal` points to after `v.UnmarshalKey(key, rawVal)`
when it pointed to `o` before, and the error returned. -/
structure Viper where
  UnmarshalKey : String → Config → Config × Option errors.Err

end viper

/-- Go `NewConfig` of config.go (lines 92-99).  `pcs` is the call stack of
the caller, which `errors.Wrap` records below the frame of the call at
config.go:96. -/
def NewConfig (pcs : List errors.Frame) (v : viper.Viper) :
    Option Config × Option errors.Err :=
  let o : Config := {}
  match v.UnmarshalKey "redis" o with
  | (_, some err) =>
    (none, errors.Wrap (some err) "unmarshal app option error"
      ⟨"redis.NewConfig", "config.go", 96⟩ pcs)
  | (o, none) => (some o, none)

/-- Go `NewConfig` of share.go (lines 16-23), the second declaration of
the same name in the package; its call of `errors.Wrap` is at share.go:20. -/
def share.NewConfig (pcs : List errors.Frame) (v : viper.Viper) :
    Option Config × Option errors.Err :=
  let o : Config := {}
  match v.UnmarshalKey "redis" o with
  | (_, some err) =>
    (none, errors.Wrap (some err) "unmarshal app option error"
      ⟨"redis.NewConfig", "share.go", 20⟩ pcs)
  | (o, none) => (some o, none)

/-! ## Vocabulary of the specification -/

/-- Decimal text of an integer: an optional sign `+` or `-` followed by
one or more decimal digits. -/
def isIntegerText (s : String) : Bool :=
  match s.data with
  | [] => false
  | c :: cs =>
    if c = '+' ∨ c = '-' then !cs.isEmpty && cs.all strconv.isDigit
    else (c :: cs).all strconv.isDigit

/-- The Sentinel variant is populated: a non-empty `MasterName` and a
non-empty `SentinelAddrs` list. -/
def Sentinel.populated (s : Sentinel) : Bool :=
  decide (s.MasterName ≠ "") && decide (0 < s.SentinelAddrs.len)

/-- The Cluster variant is populated: a non-empty `ClusterAddrs` list. -/
def Cluster.populated (c : Cluster) : Bool := decide (0 < c.ClusterAddrs.len)

/-- The Standalone variant is populated: a non-empty `Master` address. -/
def Standalone.populated (s : Standalone) : Bool := decide (s.Master ≠ "")

/-- How many of the three topology variants of a `Config` are populated. -/
def Config.populatedCount (c : Config) : Nat :=
  (if c.Sentinel.populated then 1 else 0) + (if c.Cluster.populated then 1 else 0) +
    (if c.Standalone.populated then 1 else 0)

/-- The text `NewConfigByDSN` hands to `Atoi` for the database index. -/
def dbText (u : url.URL) : String :=
  if u.Query.Get "db" = "" then "0" else u.Query.Get "db"

/-- The text `NewConfigByDSN` hands to `Atoi` for the redirect count. -/
def maxRedirectsText (u : url.URL) : String :=
  if u.Query.Get "max_redirects" = "" then "1" else u.Query.Get "max_redirects"

/-- Value of a list of decimal digits read after the accumulator `a`. -/
def strconv.decValue (ds : List Char) (a : Nat) : Nat :=
  ds.foldl (fun n c => n * 10 + strconv.digitVal c) a


/-- The address list `addrs` is the comma-separated reading of the text
`s`: it is a non-nil list that joined with `","` gives `s` back, has one
element more than `s` has commas, and none of its elements holds a comma. -/
def IsCommaList (addrs : Slice String) (s : String) : Prop :=
  ∃ xs, addrs = some xs ∧ strings.Join xs "," = s ∧
    xs.length = strings.Count s ',' + 1 ∧ ∀ x ∈ xs, ',' ∉ x.data

/-! ## Scenarios of the specification -/

namespace Scenario

/-- Scenario 1: a standalone DSN. -/
def dsn1 : String := "redis://127.0.0.1:6379"

/-- What `url.Parse` returns for `dsn1`. -/
def url1 : url.URL := { Scheme := "redis", Host := "127.0.0.1:6379" }

/-- What `NewConfigByDSN` returns for `dsn1`. -/
def config1 : Config := { Standalone := { Master := "127.0.0.1:6379", Slaves := some [] } }

/-- A DSN that names both sentinel and cluster addresses. -/
def bothDSN : String := "redis://h:6379?sentinel_addrs=s1:26379,s2:26379&cluster_addrs=c1:7000"

/-- What `url.Parse` returns for `bothDSN`. -/
def bothURL : url.URL :=
  { Scheme := "redis", Host := "h:6379",
    RawQuery := "sentinel_addrs=s1:26379,s2:26379&cluster_addrs=c1:7000" }

/-- What `NewConfigByDSN` returns for `bothDSN`. -/
def bothConfig : Config :=
  { Sentinel := { MasterName := "", SentinelAddrs := some ["s1:26379", "s2:26379"],
                  SentinelPassword := "" } }

/-- Scenario 2: a sentinel DSN. -/
def dsn2 : String :=
  "redis://h:6379?sentinel_addrs=s1:26379,s2:26379&master_name=mymaster&password=secret"

/-- What `url.Parse` returns for `dsn2`. -/
def url2 : url.URL :=
  { Scheme := "redis", Host := "h:6379",
    RawQuery := "sentinel_addrs=s1:26379,s2:26379&master_name=mymaster&password=secret" }

/-- What `NewConfigByDSN` returns for `dsn2`. -/
def config2 : Config :=
  { Password := "secret",
    Sentinel := { MasterName := "mymaster", SentinelAddrs := some ["s1:26379", "s2:26379"],
                  SentinelPassword := "secret" } }

/-- Scenario 2 with a `sentinel_password` parameter added. -/
def dsn2sp : String :=
  "redis://h:6379?sentinel_addrs=s1:26379,s2:26379&master_name=mymaster&password=secret&sentinel_password=other"

/-- What `url.Parse` returns for `dsn2sp`. -/
def url2sp : url.URL :=
  { Scheme := "redis", Host := "h:6379",
    RawQuery := "sentinel_addrs=s1:26379,s2:26379&master_name=mymaster&password=secret&sentinel_password=other" }

/-- Scenario 3: a cluster DSN. -/
def dsn3 : String := "redis://h:6379?cluster_addrs=c1:7000,c2:7000"

/-- What `url.Parse` returns for `dsn3`. -/
def url3 : url.URL :=
  { Scheme := "redis", Host := "h:6379", RawQuery := "cluster_addrs=c1:7000,c2:7000" }

/-- What `NewConfigByDSN` returns for `dsn3`. -/
def config3 : Config :=
  { Cluster := { ClusterAddrs := some ["c1:7000", "c2:7000"], MaxRedirects := 1 } }

/-- Scenario 4: a database index that is no integer. -/
def dsn4 : String := "redis://h:6379?db=abc"

/-- What `url.Parse` returns for `dsn4`. -/
def url4 : url.URL := { Scheme := "redis", Host := "h:6379", RawQuery := "db=abc" }

/-- Scenario 5: a redirect count that is no integer. -/
def dsn5 : String := "redis://h:6379?cluster_addrs=c1:7000&max_redirects=xyz"

/-- What `url.Parse` returns for `dsn5`. -/
def url5 : url.URL :=
  { Scheme := "redis", Host := "h:6379", RawQuery := "cluster_addrs=c1:7000&max_redirects=xyz" }

/-- A cluster DSN whose redirect count is the integer `2^63`. -/
def bigDSN : String := "redis://h:6379?cluster_addrs=c1:7000&max_redirects=9223372036854775808"

/-- What `url.Parse` returns for `bigDSN`. -/
def bigURL : url.URL :=
  { Scheme := "redis", Host := "h:6379",
    RawQuery := "cluster_addrs=c1:7000&max_redirects=9223372036854775808" }

/-- A cluster DSN with an explicit redirect count. -/
def dsn3r : String := "redis://h:6379?cluster_addrs=c1:7000,c2:7000&max_redirects=-1"

/-- What `url.Parse` returns for `dsn3r`. -/
def url3r : url.URL :=
  { Scheme := "redis", Host := "h:6379",
    RawQuery := "cluster_addrs=c1:7000,c2:7000&max_redirects=-1" }

/-- A standalone DSN with replicas. -/
def dsn1s : String := "redis://127.0.0.1:6379?slaves=r1:6379,r2:6379&db=2"

/-- What `url.Parse` returns for `dsn1s`. -/
def url1s : url.URL :=
  { Scheme := "redis", Host := "127.0.0.1:6379", RawQuery := "slaves=r1:6379,r2:6379&db=2" }

/-- Scenario 1 with `username` and `password` explicitly empty. -/
def dsn1e : String := "redis://127.0.0.1:6379?username=&password="

/-- What `url.Parse` returns for `dsn1e`. -/
def url1e : url.URL :=
  { Scheme := "redis", Host := "127.0.0.1:6379", RawQuery := "username=&password=" }

/-- What `NewConfigByDSN` returns for `dsn1s`. -/
def config1s : Config :=
  { DB := 2, Standalone := { Master := "127.0.0.1:6379", Slaves := some ["r1:6379", "r2:6379"] } }

/-- A sentinel DSN that also carries parameters of the other branches. -/
def dsn2x : String :=
  "redis://other:1?sentinel_addrs=s1:26379,s2:26379&master_name=mymaster&password=secret&cluster_addrs=c1:7000&max_redirects=xyz&slaves=r1:6379"

/-- What `url.Parse` returns for `dsn2x`. -/
def url2x : url.URL :=
  { Scheme := "redis", Host := "other:1",
    RawQuery := "sentinel_addrs=s1:26379,s2:26379&master_name=mymaster&password=secret&cluster_addrs=c1:7000&max_redirects=xyz&slaves=r1:6379" }

/-- A standalone DSN with a negative database index and a redirect count
that is no integer. -/
def dsnNeg : String := "redis://h:6379?db=-1&max_redirects=xyz"

/-- What `url.Parse` returns for `dsnNeg`. -/
def urlNeg : url.URL :=
  { Scheme := "redis", Host := "h:6379", RawQuery := "db=-1&max_redirects=xyz" }

/-- What `NewConfigByDSN` returns for `dsnNeg`. -/
def configNeg : Config :=
  { DB := -1, Standalone := { Master := "h:6379", Slaves := some [] } }

/-- A DSN with pool and timeout parameters, none of which is read. -/
def dsnPool : String := "redis://h:6379?pool_size=50&read_timeout=3&route_randomly=true&db=1"

/-- What `url.Parse` returns for `dsnPool`. -/
def urlPool : url.URL :=
  { Scheme := "redis", Host := "h:6379",
    RawQuery := "pool_size=50&read_timeout=3&route_randomly=true&db=1" }

/-- What `NewConfigByDSN` returns for `dsnPool`. -/
def configPool : Config :=
  { DB := 1, Standalone := { Master := "h:6379", Slaves := some [] } }

/-- A text that `url.Parse` refuses: the port is no number. -/
def badDSN : String := "redis://h:port?db=0"

/-- The error of `url.Parse` on `badDSN`. -/
def badErr : url.Error := ⟨"parse", "redis://h:port?db=0", .invalidPort ":port"⟩

/-- A call stack of a caller of `NewConfig`. -/
def callerStack : List errors.Frame := [⟨"main.main", "main.go", 12⟩]

/-- A reader whose section `redis` fails to decode. -/
def failingReader : viper.Viper :=
  { UnmarshalKey := fun key o =>
      if key = "redis" then (o, some (.cause "cannot parse 'pool_size' as int"))
      else (o, none) }

/-- A Config in which both the Sentinel and the Cluster fields are set. -/
def mixedConfig : Config :=
  { PoolSize := 50,
    Sentinel := { MasterName := "m", SentinelAddrs := some ["s1:26379"] },
    Cluster := { ClusterAddrs := some ["c1:7000"], MaxRedirects := 3 } }

/-- A reader whose section `redis` decodes to `mixedConfig`. -/
def mixedReader : viper.Viper :=
  { UnmarshalKey := fun key o => if key = "redis" then (mixedConfig, none) else (o, none) }

end Scenario

/-! ## Facts about `strconv.Atoi` -/

namespace strconv

theorem decValue_cons (c : Char) (cs : List Char) (a : Nat) :
    decValue (c :: cs) a = decValue cs (a * 10 + digitVal c) := rfl

theorem decValue_mono (ds : List Char) (a : Nat) : a ≤ decValue ds a := by
  induction ds generalizing a with
  | nil => exact Nat.le_refl a
  | cons c cs ih =>
    rw [decValue_cons]
    exact Nat.le_trans (by omega) (ih _)

theorem digitVal_lt (c : Char) (h : isDigit c = true) : digitVal c < 10 := by
  simp only [isDigit, Bool.and_eq_true, decide_eq_true_eq] at h
  have h2 : c.toNat ≤ '9'.toNat := h.2
  have h3 : ('9' : Char).toNat = 57 := rfl
  have h4 : ('0' : Char).toNat = 48 := rfl
  unfold digitVal
  omega

theorem atoiLoop_digits (ds : List Char) (a : Int) (v : Int)
    (h : atoiLoop ds a = some v) : ds.all isDigit = true := by
  induction ds generalizing a with
  | nil => rfl
  | cons c cs ih =>
    unfold atoiLoop at h
    by_cases hc : isDigit c = true
    · simp only [hc, if_true] at h
      simp [hc, ih _ h]
    · simp [hc] at h

theorem atoiLoop_value (ds : List Char) (a : Nat) (h : ds.all isDigit = true) :
    atoiLoop ds (a : Int) = some ((decValue ds a : Nat) : Int) := by
  induction ds generalizing a with
  | nil => rfl
  | cons c cs ih =>
    simp only [List.all_cons, Bool.and_eq_true] at h
    unfold atoiLoop
    simp only [h.1, if_true, decValue_cons]
    have := ih (a * 10 + digitVal c) h.2
    rw [← this]
    push_cast
    rfl

theorem parseUintLoop_digits (cutoff maxVal : Nat) (ds : List Char) (n v : Nat)
    (h : parseUintLoop cutoff maxVal ds n = .ok v) : ds.all isDigit = true := by
  induction ds generalizing n with
  | nil => rfl
  | cons c cs ih =>
    unfold parseUintLoop at h
    by_cases hc : isDigit c = true
    · simp only [hc, if_true] at h
      split at h
      · cases h
      · split at h
        · cases h
        · simp [hc, ih _ h]
    · simp [hc] at h

theorem parseUintLoop_value (ds : List Char) (n : Nat) (h : ds.all isDigit = true)
    (hv : decValue ds n < 2 ^ 64) :
    parseUintLoop ((2 ^ 64 - 1) / 10 + 1) (2 ^ 64 - 1) ds n = .ok (decValue ds n) := by
  induction ds generalizing n with
  | nil => rfl
  | cons c cs ih =>
    simp only [List.all_cons, Bool.and_eq_true] at h
    rw [decValue_cons] at hv
    have hm := decValue_mono cs (n * 10 + digitVal c)
    have hd := digitVal_lt c h.1
    unfold parseUintLoop
    simp only [h.1, if_true, decValue_cons]
    have h1 : ¬ n ≥ (2 ^ 64 - 1) / 10 + 1 := by norm_num; omega
    have h2 : n * 10 % 2 ^ 64 = n * 10 := Nat.mod_eq_of_lt (by omega)
    have h3 : (n * 10 + digitVal c) % 2 ^ 64 = n * 10 + digitVal c :=
      Nat.mod_eq_of_lt (by omega)
    simp only [h1, if_false, h2, h3]
    have h4 : ¬ (n * 10 + digitVal c < n * 10 ∨ n * 10 + digitVal c > 2 ^ 64 - 1) := by
      omega
    simp only [h4, if_false]
    exact ih _ h.2 hv

theorem digitChar_isDigit (k : Nat) (h : k < 10) :
    isDigit (Nat.digitChar k) = true ∧ digitVal (Nat.digitChar k) = k := by
  interval_cases k <;> exact ⟨by decide, by decide⟩

theorem toDigitsCore_spec (fuel n : Nat) (ds : List Char) (hf : n < fuel)
    (hds : ds.all isDigit = true) :
    (Nat.toDigitsCore 10 fuel n ds).all isDigit = true ∧
    Nat.toDigitsCore 10 fuel n ds ≠ [] ∧
    decValue (Nat.toDigitsCore 10 fuel n ds) 0 = decValue ds n := by
  induction fuel generalizing n ds with
  | zero => omega
  | succ f ih =>
    have hk := digitChar_isDigit (n % 10) (Nat.mod_lt _ (by decide))
    unfold Nat.toDigitsCore
    by_cases h0 : n / 10 = 0
    · simp only [h0, if_true]
      refine ⟨by simp [hk.1, hds], by simp, ?_⟩
      rw [decValue_cons, hk.2]
      congr 1
      omega
    · simp only [h0, if_false]
      have hlt : n / 10 < f := by omega
      have ih' := ih (n / 10) (Nat.digitChar (n % 10) :: ds) hlt (by simp [hk.1, hds])
      refine ⟨ih'.1, ih'.2.1, ?_⟩
      rw [ih'.2.2, decValue_cons, hk.2]
      congr 1
      omega

theorem toDigits_spec (n : Nat) :
    (Nat.toDigits 10 n).all isDigit = true ∧ Nat.toDigits 10 n ≠ [] ∧
    decValue (Nat.toDigits 10 n) 0 = n := by
  have := toDigitsCore_spec (n + 1) n [] (Nat.lt_succ_self n) rfl
  exact this


theorem ParseUint_digits (ds : List Char) (v : Nat) (h : ParseUint ds = .ok v) :
    ds ≠ [] ∧ ds.all isDigit = true := by
  unfold ParseUint at h
  by_cases h0 : ds = []
  · simp [h0] at h
  · simp only [h0, if_false] at h
    exact ⟨h0, parseUintLoop_digits _ _ _ _ _ h⟩

theorem ParseUint_value (ds : List Char) (h0 : ds ≠ []) (h : ds.all isDigit = true)
    (hv : decValue ds 0 < 2 ^ 64) : ParseUint ds = .ok (decValue ds 0) := by
  unfold ParseUint
  simp only [h0, if_false, intSize]
  exact parseUintLoop_value ds 0 h hv

theorem parseIntRange_error (s : String) (neg : Bool) (un : Nat) (e : NumError)
    (h : parseIntRange s neg un = .error e) : e.Num = s := by
  unfold parseIntRange at h
  simp only at h
  split_ifs at h <;> cases h <;> rfl

theorem ParseInt_error (s : String) (e : NumError) (h : ParseInt s = .error e) :
    e.Num = s := by
  unfold ParseInt at h
  split at h
  · cases h; rfl
  · simp only at h
    split at h
    · cases h; rfl
    · exact parseIntRange_error _ _ _ _ h
    · exact parseIntRange_error _ _ _ _ h

theorem atoiFast_error (s : String) (e : NumError) (h : atoiFast s = .error e) :
    e.Func = "Atoi" ∧ e.Num = s := by
  unfold atoiFast at h
  split at h
  · cases h; exact ⟨rfl, rfl⟩
  · simp only at h
    split_ifs at h <;> first
      | (cases h; exact ⟨rfl, rfl⟩)
      | (split at h <;> first | (cases h; exact ⟨rfl, rfl⟩) | cases h)

theorem Atoi_error (s : String) (e : NumError) (h : Atoi s = .error e) :
    e.Func = "Atoi" ∧ e.Num = s := by
  unfold Atoi at h
  simp only at h
  split_ifs at h
  · exact atoiFast_error s e h
  · split at h
    · rename_i e' he'
      cases h
      exact ⟨rfl, ParseInt_error s e' he'⟩
    · cases h

theorem parseIntRange_ok (s : String) (neg : Bool) (un : Nat) (n : Int)
    (h : parseIntRange s neg un = .ok n) : un < 2 ^ 64 - 1 := by
  unfold parseIntRange at h
  simp only [intSize] at h
  split_ifs at h <;> cases neg <;> simp_all <;> omega

theorem ParseInt_integerText (s : String) (n : Int) (h : ParseInt s = .ok n) :
    isIntegerText s = true := by
  unfold ParseInt at h
  unfold isIntegerText
  split at h
  · cases h
  · rename_i c cs hs
    simp only at h
    split at h
    · cases h
    · have := parseIntRange_ok _ _ _ _ h
      simp [intSize] at this
    · rename_i un hun
      have hd := ParseUint_digits _ _ hun
      by_cases hc : c = '+' ∨ c = '-'
      · simp only [hc, if_true] at hd ⊢
        simp [hd.1, hd.2]
      · simp only [hc, if_false] at hd ⊢
        exact hd.2

theorem atoiFast_integerText (s : String) (n : Int) (h : atoiFast s = .ok n) :
    isIntegerText s = true := by
  unfold atoiFast at h
  unfold isIntegerText
  split at h
  · cases h
  · rename_i c cs hs
    simp only at h
    by_cases hc : c = '-' ∨ c = '+'
    · have hc' : c = '+' ∨ c = '-' := hc.symm
      simp only [hc, if_true] at h
      simp only [hc', if_true]
      by_cases hlen : cs.length < 1
      · simp [hlen] at h
      · simp only [hlen, if_false] at h
        have hne : cs ≠ [] := by
          intro h0
          simp [h0] at hlen
        cases hv : atoiLoop cs 0 with
        | none => simp [hv] at h
        | some v =>
          have hd := atoiLoop_digits _ _ _ hv
          simp [hd, hne]
    · have hc' : ¬ (c = '+' ∨ c = '-') := fun h => hc h.symm
      simp only [hc, if_false] at h
      simp only [hc', if_false]
      by_cases hlen : (c :: cs).length < 1
      · simp at hlen
      · simp only [hlen, if_false] at h
        cases hv : atoiLoop (c :: cs) 0 with
        | none => simp [hv] at h
        | some v => exact atoiLoop_digits _ _ _ hv

theorem Atoi_integerText (s : String) (n : Int) (h : Atoi s = .ok n) :
    isIntegerText s = true := by
  unfold Atoi at h
  simp only at h
  split_ifs at h
  · exact atoiFast_integerText s n h
  · split at h
    · cases h
    · rename_i i hi
      exact ParseInt_integerText s i hi


theorem isDigit_not_sign (c : Char) (h : isDigit c = true) : c ≠ '-' ∧ c ≠ '+' := by
  constructor <;> intro hc <;> subst hc <;> revert h <;> decide

theorem atoiLoop_zero (ds : List Char) (h : ds.all isDigit = true) :
    atoiLoop ds 0 = some ((decValue ds 0 : Nat) : Int) := by
  have := atoiLoop_value ds 0 h
  simpa using this

theorem parseIntRange_pos (s : String) (v : Nat) (hv : v < 2 ^ 63) :
    parseIntRange s false v = .ok (v : Int) := by
  unfold parseIntRange
  simp only [intSize]
  have h1 : ¬ v ≥ 2 ^ (64 - 1) := by norm_num; omega
  simp only [true_and, h1, if_false, false_and, Bool.false_eq_true]

theorem parseIntRange_neg (s : String) (v : Nat) (hv : v ≤ 2 ^ 63) :
    parseIntRange s true v = .ok (-(v : Int)) := by
  unfold parseIntRange
  simp only [intSize]
  have h1 : ¬ v > 2 ^ (64 - 1) := by norm_num; omega
  simp only [true_and, h1, if_false, false_and, Bool.true_eq_false, if_true]

/-- `Atoi` reads an unsigned run of digits whose value fits `int`. -/
theorem Atoi_digits_pos (ds : List Char) (h0 : ds ≠ []) (h : ds.all isDigit = true)
    (hv : decValue ds 0 < 2 ^ 63) : Atoi (String.mk ds) = .ok ((decValue ds 0 : Nat) : Int) := by
  obtain ⟨c, cs, rfl⟩ := List.exists_cons_of_ne_nil h0
  have hc : isDigit c = true := by
    simp only [List.all_cons, Bool.and_eq_true] at h
    exact h.1
  have hs := isDigit_not_sign c hc
  unfold Atoi
  simp only
  split_ifs
  · unfold atoiFast
    simp only [hs.1, hs.2, or_self, if_false, atoiLoop_zero _ h]
    simp
  · unfold ParseInt
    simp only [hs.1, hs.2, or_self, if_false]
    rw [ParseUint_value _ h0 h (by omega)]
    simp only [decide_False]
    rw [parseIntRange_pos _ _ hv]

/-- `Atoi` reads a minus sign followed by digits whose value fits `int`. -/
theorem Atoi_digits_neg (ds : List Char) (h0 : ds ≠ []) (h : ds.all isDigit = true)
    (hv : decValue ds 0 ≤ 2 ^ 63) :
    Atoi (String.mk ('-' :: ds)) = .ok (-((decValue ds 0 : Nat) : Int)) := by
  have hlen : ¬ ds.length < 1 := by
    cases ds with
    | nil => exact absurd rfl h0
    | cons c cs => simp
  unfold Atoi
  simp only
  split_ifs
  · unfold atoiFast
    simp only [true_or, if_true, hlen, if_false, atoiLoop_zero _ h]
  · unfold ParseInt
    simp only [or_true, if_true]
    rw [ParseUint_value _ h0 h (by omega)]
    simp only [decide_True]
    rw [parseIntRange_neg _ _ hv]

/-- `Atoi` inverts the decimal text of every integer in the range of `int`. -/
theorem Atoi_toString (n : Int) (h1 : -2 ^ 63 ≤ n) (h2 : n < 2 ^ 63) :
    Atoi (toString n) = .ok n := by
  cases n with
  | ofNat m =>
    have hs := toDigits_spec m
    have : toString (Int.ofNat m) = String.mk (Nat.toDigits 10 m) := rfl
    rw [this]
    have hm : m < 2 ^ 63 := by
      have : (m : Int) < 2 ^ 63 := h2
      exact_mod_cast this
    have := Atoi_digits_pos _ hs.2.1 hs.1 (by rw [hs.2.2]; exact hm)
    rw [this, hs.2.2]
    rfl
  | negSucc m =>
    have hs := toDigits_spec (m + 1)
    have : toString (Int.negSucc m) = String.mk ('-' :: Nat.toDigits 10 (m + 1)) := rfl
    rw [this]
    have hm : m + 1 ≤ 2 ^ 63 := by
      have : -2 ^ 63 ≤ -((m : Int) + 1) := by
        have := h1
        rw [Int.negSucc_eq] at this
        exact this
      have h3 : ((m : Int) + 1) ≤ 2 ^ 63 := by omega
      exact_mod_cast h3
    have := Atoi_digits_neg _ hs.2.1 hs.1 (by rw [hs.2.2]; exact hm)
    rw [this, hs.2.2, Int.negSucc_eq]
    push_cast
    rfl

end strconv

/-! ## The paths through `NewConfigByDSN` -/

theorem NewConfigByDSN_parse_error (ctx : context.Context) (dsn : String) (e : url.Error)
    (hp : url.Parse dsn = .error e) : NewConfigByDSN ctx dsn = (none, some (.url e)) := by
  unfold NewConfigByDSN
  simp only [hp]

theorem NewConfigByDSN_db_error (ctx : context.Context) (dsn : String) (u : url.URL)
    (e : strconv.NumError) (hp : url.Parse dsn = .ok u)
    (hdb : strconv.Atoi (dbText u) = .error e) :
    NewConfigByDSN ctx dsn = (none, some (.num e)) := by
  unfold dbText at hdb
  unfold NewConfigByDSN
  simp only [hp, hdb]

theorem NewConfigByDSN_sentinel (ctx : context.Context) (dsn : String) (u : url.URL)
    (n : Int) (hp : url.Parse dsn = .ok u) (hdb : strconv.Atoi (dbText u) = .ok n)
    (hs : u.Query.Get "sentinel_addrs" ≠ "") :
    NewConfigByDSN ctx dsn =
      (some { DB := n, Username := u.Query.Get "username", Password := u.Query.Get "password",
              Sentinel := { MasterName := u.Query.Get "master_name",
                            SentinelAddrs := strings.Split (u.Query.Get "sentinel_addrs") ',',
                            SentinelPassword := u.Query.Get "password" } }, none) := by
  unfold dbText at hdb
  unfold NewConfigByDSN
  simp only [hp, hdb, hs, ne_eq, not_false_eq_true, if_true]

theorem NewConfigByDSN_redirect_error (ctx : context.Context) (dsn : String) (u : url.URL)
    (n : Int) (e : strconv.NumError) (hp : url.Parse dsn = .ok u)
    (hdb : strconv.Atoi (dbText u) = .ok n)
    (hs : u.Query.Get "sentinel_addrs" = "") (hc : u.Query.Get "cluster_addrs" ≠ "")
    (hm : strconv.Atoi (maxRedirectsText u) = .error e) :
    NewConfigByDSN ctx dsn = (none, some (.num e)) := by
  unfold dbText at hdb
  unfold maxRedirectsText at hm
  unfold NewConfigByDSN
  simp only [hp, hdb, hs, hc, hm, ne_eq, not_true_eq_false, not_false_eq_true, if_true,
    if_false]

theorem NewConfigByDSN_cluster (ctx : context.Context) (dsn : String) (u : url.URL)
    (n m : Int) (hp : url.Parse dsn = .ok u) (hdb : strconv.Atoi (dbText u) = .ok n)
    (hs : u.Query.Get "sentinel_addrs" = "") (hc : u.Query.Get "cluster_addrs" ≠ "")
    (hm : strconv.Atoi (maxRedirectsText u) = .ok m) :
    NewConfigByDSN ctx dsn =
      (some { DB := n, Username := u.Query.Get "username", Password := u.Query.Get "password",
              Cluster := { ClusterAddrs := strings.Split (u.Query.Get "cluster_addrs") ',',
                           MaxRedirects := m } }, none) := by
  unfold dbText at hdb
  unfold maxRedirectsText at hm
  unfold NewConfigByDSN
  simp only [hp, hdb, hs, hc, hm, ne_eq, not_true_eq_false, not_false_eq_true, if_true,
    if_false]

theorem NewConfigByDSN_standalone (ctx : context.Context) (dsn : String) (u : url.URL)
    (n : Int) (hp : url.Parse dsn = .ok u) (hdb : strconv.Atoi (dbText u) = .ok n)
    (hs : u.Query.Get "sentinel_addrs" = "") (hc : u.Query.Get "cluster_addrs" = "") :
    NewConfigByDSN ctx dsn =
      (some { DB := n, Username := u.Query.Get "username", Password := u.Query.Get "password",
              Standalone := { Master := u.Host,
                              Slaves := if u.Query.Get "slaves" ≠ "" then
                                  Slice.append (some [])
                                    (strings.Split (u.Query.Get "slaves") ',')
                                else some [] } }, none) := by
  unfold dbText at hdb
  unfold NewConfigByDSN
  simp only [hp, hdb, hs, hc, ne_eq, not_true_eq_false, if_false]

theorem Atoi_zero : strconv.Atoi "0" = .ok 0 := rfl

theorem Atoi_one : strconv.Atoi "1" = .ok 1 := rfl

theorem dbText_of_empty (u : url.URL) (h : u.Query.Get "db" = "") : dbText u = "0" := by
  unfold dbText
  simp only [h, if_true]

theorem dbText_of_ne (u : url.URL) (h : u.Query.Get "db" ≠ "") :
    dbText u = u.Query.Get "db" := by
  unfold dbText
  simp only [h, if_false]

/-- A database text that is empty or that `Atoi` reads gives an index. -/
theorem dbText_valid (u : url.URL)
    (h : u.Query.Get "db" = "" ∨ ∃ n, strconv.Atoi (u.Query.Get "db") = .ok n) :
    ∃ n, strconv.Atoi (dbText u) = .ok n := by
  by_cases h0 : u.Query.Get "db" = ""
  · exact ⟨0, by rw [dbText_of_empty u h0]; exact Atoi_zero⟩
  · rcases h with h | ⟨n, hn⟩
    · exact absurd h h0
    · exact ⟨n, by rw [dbText_of_ne u h0]; exact hn⟩

/-- A successful result comes with a database index that `Atoi` read. -/
theorem dbText_of_success (ctx : context.Context) (dsn : String) (u : url.URL) (cfg : Config)
    (hp : url.Parse dsn = .ok u) (hres : NewConfigByDSN ctx dsn = (some cfg, none)) :
    ∃ n, strconv.Atoi (dbText u) = .ok n := by
  cases hdb : strconv.Atoi (dbText u) with
  | ok n => exact ⟨n, rfl⟩
  | error e =>
    rw [NewConfigByDSN_db_error ctx dsn u e hp hdb] at hres
    cases hres

/-- Every successful result is the value built on one of the three paths. -/
theorem NewConfigByDSN_success (ctx : context.Context) (dsn : String) (u : url.URL)
    (cfg : Config) (hp : url.Parse dsn = .ok u)
    (hres : NewConfigByDSN ctx dsn = (some cfg, none)) :
    ∃ n, strconv.Atoi (dbText u) = .ok n ∧
      ((u.Query.Get "sentinel_addrs" ≠ "" ∧
          cfg = { DB := n, Username := u.Query.Get "username",
                  Password := u.Query.Get "password",
                  Sentinel := { MasterName := u.Query.Get "master_name",
                                SentinelAddrs := strings.Split (u.Query.Get "sentinel_addrs") ',',
                                SentinelPassword := u.Query.Get "password" } }) ∨
       (u.Query.Get "sentinel_addrs" = "" ∧ u.Query.Get "cluster_addrs" ≠ "" ∧
          ∃ m, strconv.Atoi (maxRedirectsText u) = .ok m ∧
            cfg = { DB := n, Username := u.Query.Get "username",
                    Password := u.Query.Get "password",
                    Cluster := { ClusterAddrs := strings.Split (u.Query.Get "cluster_addrs") ',',
                                 MaxRedirects := m } }) ∨
       (u.Query.Get "sentinel_addrs" = "" ∧ u.Query.Get "cluster_addrs" = "" ∧
          cfg = { DB := n, Username := u.Query.Get "username",
                  Password := u.Query.Get "password",
                  Standalone := { Master := u.Host,
                                  Slaves := if u.Query.Get "slaves" ≠ "" then
                                      Slice.append (some [])
                                        (strings.Split (u.Query.Get "slaves") ',')
                                    else some [] } })) := by
  obtain ⟨n, hn⟩ := dbText_of_success ctx dsn u cfg hp hres
  refine ⟨n, hn, ?_⟩
  by_cases hs : u.Query.Get "sentinel_addrs" = ""
  · by_cases hc : u.Query.Get "cluster_addrs" = ""
    · rw [NewConfigByDSN_standalone ctx dsn u n hp hn hs hc] at hres
      injection hres with h1 _
      injection h1 with h1
      exact Or.inr (Or.inr ⟨hs, hc, h1.symm⟩)
    · cases hm : strconv.Atoi (maxRedirectsText u) with
      | error e =>
        rw [NewConfigByDSN_redirect_error ctx dsn u n e hp hn hs hc hm] at hres
        cases hres
      | ok m =>
        rw [NewConfigByDSN_cluster ctx dsn u n m hp hn hs hc hm] at hres
        injection hres with h1 _
        injection h1 with h1
        exact Or.inr (Or.inl ⟨hs, hc, m, rfl, h1.symm⟩)
  · rw [NewConfigByDSN_sentinel ctx dsn u n hp hn hs] at hres
    injection hres with h1 _
    injection h1 with h1
    exact Or.inl ⟨hs, h1.symm⟩

theorem Slice.len_none {α : Type} : Slice.len (none : Slice α) = 0 := rfl

theorem Split_len_pos (s : String) (sep : Char) : 0 < (strings.Split s sep).len := by
  unfold strings.Split Slice.len
  simp only [List.length_map]
  generalize ([] : List Char) = cur
  induction s.data generalizing cur with
  | nil => simp [strings.splitLoop]
  | cons c cs ih =>
    unfold strings.splitLoop
    split_ifs
    · simp
    · exact ih _

/-! ## The claims -/

/-- C1. Precedence law: when a DSN resolves successfully and its query has
both a non-empty `sentinel_addrs` and a non-empty `cluster_addrs`, the
result carries the Sentinel variant (`SentinelAddrs` is the comma-split of
`sentinel_addrs`) and the Cluster variant is left zero-valued
(`ClusterAddrs` is nil, `MaxRedirects` is 0). -/
theorem C1_sentinel_precedence (ctx : context.Context) (dsn : String) (u : url.URL)
    (cfg : Config) (hp : url.Parse dsn = .ok u)
    (hres : NewConfigByDSN ctx dsn = (some cfg, none))
    (hs : u.Query.Get "sentinel_addrs" ≠ "") (_hc : u.Query.Get "cluster_addrs" ≠ "") :
    cfg.Sentinel.SentinelAddrs = strings.Split (u.Query.Get "sentinel_addrs") ',' ∧
      cfg.Cluster.ClusterAddrs = none ∧ cfg.Cluster.MaxRedirects = 0 := by
  obtain ⟨n, -, h⟩ := NewConfigByDSN_success ctx dsn u cfg hp hres
  rcases h with ⟨-, rfl⟩ | ⟨h0, -⟩ | ⟨h0, -⟩
  · exact ⟨rfl, rfl, rfl⟩
  · exact absurd h0 hs
  · exact absurd h0 hs

/-- C1, at `redis://h:6379?sentinel_addrs=s1:26379,s2:26379&cluster_addrs=c1:7000`. -/
theorem C1_sentinel_precedence_witness :
    url.Parse Scenario.bothDSN = .ok Scenario.bothURL ∧
    NewConfigByDSN .Background Scenario.bothDSN = (some Scenario.bothConfig, none) ∧
    Scenario.bothURL.Query.Get "sentinel_addrs" = "s1:26379,s2:26379" ∧
    Scenario.bothURL.Query.Get "cluster_addrs" = "c1:7000" ∧
    Scenario.bothConfig.Sentinel.SentinelAddrs = some ["s1:26379", "s2:26379"] ∧
    Scenario.bothConfig.Cluster.ClusterAddrs = none ∧
    Scenario.bothConfig.Cluster.MaxRedirects = 0 :=
  have h := C1_sentinel_precedence .Background Scenario.bothDSN Scenario.bothURL
    Scenario.bothConfig rfl rfl (by decide) (by decide)
  ⟨rfl, rfl, rfl, rfl, h.1.trans rfl, h.2.1, h.2.2⟩

/-- C2 as stated fails: `redis://h:6379?sentinel_addrs=s1:26379` resolves
successfully to a Config in which no variant is populated (the Sentinel
branch is taken and `MasterName` stays empty). -/
theorem C2_counterexample :
    ∃ cfg, NewConfigByDSN .Background "redis://h:6379?sentinel_addrs=s1:26379" =
        (some cfg, none) ∧
      cfg.Sentinel.populated = false ∧ cfg.Cluster.populated = false ∧
      cfg.Standalone.populated = false ∧ cfg.populatedCount = 0 :=
  ⟨{ Sentinel := { MasterName := "", SentinelAddrs := some ["s1:26379"],
                   SentinelPassword := "" } }, rfl, rfl, rfl, rfl, rfl⟩

/-- C2, amended. For every DSN that resolves successfully at most one
topology variant is populated, and exactly one is populated unless the
required text of the selected variant is empty (`sentinel_addrs` non-empty
with an empty `master_name`, or `sentinel_addrs` and `cluster_addrs` both
empty with an empty host), in which case none is. -/
theorem C2_one_variant_populated (ctx : context.Context) (dsn : String) (u : url.URL)
    (cfg : Config) (hp : url.Parse dsn = .ok u)
    (hres : NewConfigByDSN ctx dsn = (some cfg, none)) :
    cfg.populatedCount ≤ 1 ∧
    (cfg.populatedCount = 1 ↔
      ¬ ((u.Query.Get "sentinel_addrs" ≠ "" ∧ u.Query.Get "master_name" = "") ∨
         (u.Query.Get "sentinel_addrs" = "" ∧ u.Query.Get "cluster_addrs" = "" ∧
            u.Host = ""))) ∧
    (cfg.populatedCount ≠ 1 → cfg.populatedCount = 0) := by
  obtain ⟨n, -, h⟩ := NewConfigByDSN_success ctx dsn u cfg hp hres
  rcases h with ⟨hs, rfl⟩ | ⟨hs, hc, m, -, rfl⟩ | ⟨hs, hc, rfl⟩
  · have hl := Split_len_pos (u.Query.Get "sentinel_addrs") ','
    by_cases hm : u.Query.Get "master_name" = "" <;>
      simp [Config.populatedCount, Sentinel.populated, Cluster.populated,
        Standalone.populated, Slice.len_none, hs, hm, hl]
  · have hl := Split_len_pos (u.Query.Get "cluster_addrs") ','
    simp [Config.populatedCount, Sentinel.populated, Cluster.populated,
      Standalone.populated, Slice.len_none, hs, hc, hl]
  · by_cases hh : u.Host = "" <;>
      simp [Config.populatedCount, Sentinel.populated, Cluster.populated,
        Standalone.populated, Slice.len_none, hs, hc, hh]

/-- C2 amended, at `redis://127.0.0.1:6379`: only Standalone is populated. -/
theorem C2_one_variant_populated_witness :
    url.Parse Scenario.dsn1 = .ok Scenario.url1 ∧
    NewConfigByDSN .Background Scenario.dsn1 = (some Scenario.config1, none) ∧
    Scenario.config1.populatedCount = 1 ∧ Scenario.config1.Standalone.populated = true :=
  have h := C2_one_variant_populated .Background Scenario.dsn1 Scenario.url1
    Scenario.config1 rfl rfl
  ⟨rfl, rfl, h.2.1.mpr (by decide), rfl⟩

/-- C3. In every successful result the topology variants that were not
selected are zero-valued: with `sentinel_addrs` non-empty Cluster and
Standalone are zero; with `sentinel_addrs` empty and `cluster_addrs`
non-empty Sentinel and Standalone are zero; otherwise Sentinel and Cluster
are zero. -/
theorem C3_unselected_zero (ctx : context.Context) (dsn : String) (u : url.URL)
    (cfg : Config) (hp : url.Parse dsn = .ok u)
    (hres : NewConfigByDSN ctx dsn = (some cfg, none)) :
    (u.Query.Get "sentinel_addrs" ≠ "" →
      cfg.Cluster = { ClusterAddrs := none, MaxRedirects := 0, ClusterSlotAddrs := none } ∧
      cfg.Standalone = { Master := "", Slaves := none }) ∧
    (u.Query.Get "sentinel_addrs" = "" ∧ u.Query.Get "cluster_addrs" ≠ "" →
      cfg.Sentinel = { MasterName := "", SentinelAddrs := none, SentinelPassword := "" } ∧
      cfg.Standalone = { Master := "", Slaves := none }) ∧
    (u.Query.Get "sentinel_addrs" = "" ∧ u.Query.Get "cluster_addrs" = "" →
      cfg.Sentinel = { MasterName := "", SentinelAddrs := none, SentinelPassword := "" } ∧
      cfg.Cluster = { ClusterAddrs := none, MaxRedirects := 0, ClusterSlotAddrs := none }) := by
  obtain ⟨n, -, h⟩ := NewConfigByDSN_success ctx dsn u cfg hp hres
  rcases h with ⟨hs, rfl⟩ | ⟨hs, hc, m, -, rfl⟩ | ⟨hs, hc, rfl⟩
  · exact ⟨fun _ => ⟨rfl, rfl⟩, fun h => absurd h.1 hs, fun h => absurd h.1 hs⟩
  · exact ⟨fun h => absurd hs h, fun _ => ⟨rfl, rfl⟩, fun h => absurd h.2 hc⟩
  · exact ⟨fun h => absurd hs h, fun h => absurd hc h.2, fun _ => ⟨rfl, rfl⟩⟩

/-- C3, at the cluster DSN `redis://h:6379?cluster_addrs=c1:7000,c2:7000`. -/
theorem C3_unselected_zero_witness :
    url.Parse Scenario.dsn3 = .ok Scenario.url3 ∧
    NewConfigByDSN .Background Scenario.dsn3 = (some Scenario.config3, none) ∧
    Scenario.config3.Sentinel =
      { MasterName := "", SentinelAddrs := none, SentinelPassword := "" } ∧
    Scenario.config3.Standalone = { Master := "", Slaves := none } :=
  have h := C3_unselected_zero .Background Scenario.dsn3 Scenario.url3 Scenario.config3 rfl rfl
  ⟨rfl, rfl, h.2.1 ⟨rfl, by decide⟩⟩

/-- C4. Default law for `db`: when the `db` query parameter is absent or
empty and the DSN resolves successfully, the returned Config has `DB = 0`,
whichever topology branch is taken. -/
theorem C4_db_default (ctx : context.Context) (dsn : String) (u : url.URL)
    (cfg : Config) (hp : url.Parse dsn = .ok u)
    (hres : NewConfigByDSN ctx dsn = (some cfg, none))
    (hdb : u.Query.Get "db" = "") : cfg.DB = 0 := by
  obtain ⟨n, hn, h⟩ := NewConfigByDSN_success ctx dsn u cfg hp hres
  rw [dbText_of_empty u hdb, Atoi_zero] at hn
  injection hn with hn
  subst hn
  rcases h with ⟨-, rfl⟩ | ⟨-, -, m, -, rfl⟩ | ⟨-, -, rfl⟩ <;> rfl

/-- C4, at `redis://127.0.0.1:6379`. -/
theorem C4_db_default_witness :
    url.Parse Scenario.dsn1 = .ok Scenario.url1 ∧
    NewConfigByDSN .Background Scenario.dsn1 = (some Scenario.config1, none) ∧
    Scenario.url1.Query.Get "db" = "" ∧ Scenario.config1.DB = 0 :=
  ⟨rfl, rfl, rfl,
    C4_db_default .Background Scenario.dsn1 Scenario.url1 Scenario.config1 rfl rfl rfl⟩

/-- C5. When the `db` query parameter is present, non-empty and not an
integer, `NewConfigByDSN` returns no Config and the error `Atoi` raised on
that text (the invalid-database-index error), whatever the topology
parameters are. -/
theorem C5_invalid_db (ctx : context.Context) (dsn : String) (u : url.URL)
    (hp : url.Parse dsn = .ok u) (hne : u.Query.Get "db" ≠ "")
    (hni : isIntegerText (u.Query.Get "db") = false) :
    ∃ k, strconv.Atoi (u.Query.Get "db") = .error ⟨"Atoi", u.Query.Get "db", k⟩ ∧
      NewConfigByDSN ctx dsn = (none, some (.num ⟨"Atoi", u.Query.Get "db", k⟩)) := by
  cases hdb : strconv.Atoi (u.Query.Get "db") with
  | ok n =>
    have := strconv.Atoi_integerText _ n hdb
    rw [hni] at this
    cases this
  | error e =>
    have he := strconv.Atoi_error _ e hdb
    obtain ⟨f, num, k⟩ := e
    simp only at he
    obtain ⟨rfl, rfl⟩ := he
    refine ⟨k, rfl, ?_⟩
    apply NewConfigByDSN_db_error ctx dsn u _ hp
    rw [dbText_of_ne u hne]
    exact hdb

/-- C5, at `redis://h:6379?db=abc`. -/
theorem C5_invalid_db_witness :
    url.Parse Scenario.dsn4 = .ok Scenario.url4 ∧
    Scenario.url4.Query.Get "db" = "abc" ∧ isIntegerText "abc" = false ∧
    NewConfigByDSN .Background Scenario.dsn4 =
      (none, some (.num ⟨"Atoi", "abc", .ErrSyntax⟩)) ∧
    ∃ k, strconv.Atoi (Scenario.url4.Query.Get "db") =
        .error ⟨"Atoi", Scenario.url4.Query.Get "db", k⟩ ∧
      NewConfigByDSN .Background Scenario.dsn4 =
        (none, some (.num ⟨"Atoi", Scenario.url4.Query.Get "db", k⟩)) :=
  ⟨rfl, rfl, rfl, rfl,
    C5_invalid_db .Background Scenario.dsn4 Scenario.url4 rfl (by decide) rfl⟩

theorem Slice_append_Split (s : String) (sep : Char) :
    Slice.append (some []) (strings.Split s sep) = strings.Split s sep := by
  unfold strings.Split Slice.append
  simp

theorem Values_Get_absent (v : url.Values) (key : String)
    (h : ∀ kv ∈ v, kv.1 ≠ key) : v.Get key = "" := by
  unfold url.Values.Get
  have : v.find? (fun kv => decide (kv.1 = key)) = none := by
    rw [List.find?_eq_none]
    intro kv hkv
    simpa using h kv hkv
  rw [this]

theorem maxRedirectsText_of_empty (u : url.URL) (h : u.Query.Get "max_redirects" = "") :
    maxRedirectsText u = "1" := by
  unfold maxRedirectsText
  simp only [h, if_true]

theorem maxRedirectsText_of_ne (u : url.URL) (h : u.Query.Get "max_redirects" ≠ "") :
    maxRedirectsText u = u.Query.Get "max_redirects" := by
  unfold maxRedirectsText
  simp only [h, if_false]

theorem Atoi_empty : strconv.Atoi "" = .error ⟨"Atoi", "", .ErrSyntax⟩ := rfl

/-- C6 as stated fails: in `redis://h:6379?cluster_addrs=c1:7000&max_redirects=9223372036854775808`
the redirect count is the decimal text of the integer `2^63`, and the DSN
does not resolve: `Atoi` reports a range error. -/
theorem C6_counterexample :
    url.Parse Scenario.bigDSN = .ok Scenario.bigURL ∧
    Scenario.bigURL.Query.Get "sentinel_addrs" = "" ∧
    Scenario.bigURL.Query.Get "cluster_addrs" = "c1:7000" ∧
    Scenario.bigURL.Query.Get "db" = "" ∧
    Scenario.bigURL.Query.Get "max_redirects" = toString ((2 : Int) ^ 63) ∧
    NewConfigByDSN .Background Scenario.bigDSN =
      (none, some (.num ⟨"Atoi", "9223372036854775808", .ErrRange⟩)) :=
  ⟨rfl, rfl, rfl, rfl, rfl, rfl⟩

/-- C6, amended. Cluster branch: for a DSN with empty or absent
`sentinel_addrs`, non-empty `cluster_addrs` and a valid `db`, if
`max_redirects` is absent or empty the DSN resolves with `ClusterAddrs`
the comma-split of `cluster_addrs` and `MaxRedirects = 1`; if
`max_redirects` is the decimal text of an integer `n` in the range of
`int` (`-2^63 ≤ n < 2^63`), it resolves with `MaxRedirects = n`. -/
theorem C6_cluster_branch (ctx : context.Context) (dsn : String) (u : url.URL)
    (hp : url.Parse dsn = .ok u)
    (hs : u.Query.Get "sentinel_addrs" = "") (hc : u.Query.Get "cluster_addrs" ≠ "")
    (hdb : u.Query.Get "db" = "" ∨ ∃ n, strconv.Atoi (u.Query.Get "db") = .ok n) :
    (u.Query.Get "max_redirects" = "" →
      ∃ cfg, NewConfigByDSN ctx dsn = (some cfg, none) ∧
        cfg.Cluster.ClusterAddrs = strings.Split (u.Query.Get "cluster_addrs") ',' ∧
        cfg.Cluster.MaxRedirects = 1) ∧
    (∀ n : Int, -2 ^ 63 ≤ n → n < 2 ^ 63 → u.Query.Get "max_redirects" = toString n →
      ∃ cfg, NewConfigByDSN ctx dsn = (some cfg, none) ∧
        cfg.Cluster.ClusterAddrs = strings.Split (u.Query.Get "cluster_addrs") ',' ∧
        cfg.Cluster.MaxRedirects = n) := by
  obtain ⟨d, hd⟩ := dbText_valid u hdb
  constructor
  · intro hm
    have hm1 : strconv.Atoi (maxRedirectsText u) = .ok 1 := by
      rw [maxRedirectsText_of_empty u hm]
      exact Atoi_one
    exact ⟨_, NewConfigByDSN_cluster ctx dsn u d 1 hp hd hs hc hm1, rfl, rfl⟩
  · intro n h1 h2 hm
    have hn := strconv.Atoi_toString n h1 h2
    have hne : u.Query.Get "max_redirects" ≠ "" := by
      intro h0
      rw [hm] at h0
      rw [h0, Atoi_empty] at hn
      cases hn
    have hm1 : strconv.Atoi (maxRedirectsText u) = .ok n := by
      rw [maxRedirectsText_of_ne u hne, hm]
      exact hn
    exact ⟨_, NewConfigByDSN_cluster ctx dsn u d n hp hd hs hc hm1, rfl, rfl⟩

/-- C6 amended, at `redis://h:6379?cluster_addrs=c1:7000,c2:7000` (default
count 1) and at the same DSN with `max_redirects=-1`. -/
theorem C6_cluster_branch_witness :
    url.Parse Scenario.dsn3 = .ok Scenario.url3 ∧
    NewConfigByDSN .Background Scenario.dsn3 = (some Scenario.config3, none) ∧
    Scenario.config3.Cluster.ClusterAddrs = some ["c1:7000", "c2:7000"] ∧
    Scenario.config3.Cluster.MaxRedirects = 1 ∧
    (∃ cfg, NewConfigByDSN .Background Scenario.dsn3 = (some cfg, none) ∧
      cfg.Cluster.ClusterAddrs = strings.Split (Scenario.url3.Query.Get "cluster_addrs") ',' ∧
      cfg.Cluster.MaxRedirects = 1) ∧
    (∃ cfg, NewConfigByDSN .Background Scenario.dsn3r = (some cfg, none) ∧
      cfg.Cluster.ClusterAddrs = strings.Split (Scenario.url3r.Query.Get "cluster_addrs") ',' ∧
      cfg.Cluster.MaxRedirects = -1) :=
  ⟨rfl, rfl, rfl, rfl,
    (C6_cluster_branch .Background Scenario.dsn3 Scenario.url3 rfl rfl (by decide)
      (Or.inl rfl)).1 rfl,
    (C6_cluster_branch .Background Scenario.dsn3r Scenario.url3r rfl rfl (by decide)
      (Or.inl rfl)).2 (-1) (by decide) (by decide) rfl⟩

/-- C7. For a cluster DSN (`sentinel_addrs` empty or absent, `cluster_addrs`
non-empty, `db` valid) whose `max_redirects` is present, non-empty and not
an integer, `NewConfigByDSN` returns no Config and the error `Atoi` raised
on that text (the invalid-redirect-count error). -/
theorem C7_invalid_redirects (ctx : context.Context) (dsn : String) (u : url.URL)
    (hp : url.Parse dsn = .ok u)
    (hs : u.Query.Get "sentinel_addrs" = "") (hc : u.Query.Get "cluster_addrs" ≠ "")
    (hdb : u.Query.Get "db" = "" ∨ ∃ n, strconv.Atoi (u.Query.Get "db") = .ok n)
    (hne : u.Query.Get "max_redirects" ≠ "")
    (hni : isIntegerText (u.Query.Get "max_redirects") = false) :
    ∃ k, strconv.Atoi (u.Query.Get "max_redirects") =
        .error ⟨"Atoi", u.Query.Get "max_redirects", k⟩ ∧
      NewConfigByDSN ctx dsn =
        (none, some (.num ⟨"Atoi", u.Query.Get "max_redirects", k⟩)) := by
  obtain ⟨d, hd⟩ := dbText_valid u hdb
  cases hm : strconv.Atoi (u.Query.Get "max_redirects") with
  | ok n =>
    have := strconv.Atoi_integerText _ n hm
    rw [hni] at this
    cases this
  | error e =>
    have he := strconv.Atoi_error _ e hm
    obtain ⟨f, num, k⟩ := e
    simp only at he
    obtain ⟨rfl, rfl⟩ := he
    refine ⟨k, rfl, ?_⟩
    apply NewConfigByDSN_redirect_error ctx dsn u d _ hp hd hs hc
    rw [maxRedirectsText_of_ne u hne]
    exact hm

/-- C7, at `redis://h:6379?cluster_addrs=c1:7000&max_redirects=xyz`. -/
theorem C7_invalid_redirects_witness :
    url.Parse Scenario.dsn5 = .ok Scenario.url5 ∧
    Scenario.url5.Query.Get "max_redirects" = "xyz" ∧ isIntegerText "xyz" = false ∧
    NewConfigByDSN .Background Scenario.dsn5 =
      (none, some (.num ⟨"Atoi", "xyz", .ErrSyntax⟩)) ∧
    ∃ k, strconv.Atoi (Scenario.url5.Query.Get "max_redirects") =
        .error ⟨"Atoi", Scenario.url5.Query.Get "max_redirects", k⟩ ∧
      NewConfigByDSN .Background Scenario.dsn5 =
        (none, some (.num ⟨"Atoi", Scenario.url5.Query.Get "max_redirects", k⟩)) :=
  ⟨rfl, rfl, rfl, rfl,
    C7_invalid_redirects .Background Scenario.dsn5 Scenario.url5 rfl rfl (by decide)
      (Or.inl rfl) (by decide) rfl⟩

/-- C8. Sentinel branch: a DSN with non-empty `sentinel_addrs` and a valid
`db` resolves, with `MasterName` equal to the `master_name` parameter (the
empty string if it is absent) and `SentinelAddrs` the comma-split of
`sentinel_addrs`. -/
theorem C8_sentinel_branch (ctx : context.Context) (dsn : String) (u : url.URL)
    (hp : url.Parse dsn = .ok u) (hs : u.Query.Get "sentinel_addrs" ≠ "")
    (hdb : u.Query.Get "db" = "" ∨ ∃ n, strconv.Atoi (u.Query.Get "db") = .ok n) :
    ∃ cfg, NewConfigByDSN ctx dsn = (some cfg, none) ∧
      cfg.Sentinel.MasterName = u.Query.Get "master_name" ∧
      ((∀ kv ∈ u.Query, kv.1 ≠ "master_name") → cfg.Sentinel.MasterName = "") ∧
      cfg.Sentinel.SentinelAddrs = strings.Split (u.Query.Get "sentinel_addrs") ',' := by
  obtain ⟨d, hd⟩ := dbText_valid u hdb
  exact ⟨_, NewConfigByDSN_sentinel ctx dsn u d hp hd hs, rfl,
    fun h => Values_Get_absent _ _ h, rfl⟩

/-- C8, at scenario 2 of the specification. -/
theorem C8_sentinel_branch_witness :
    url.Parse Scenario.dsn2 = .ok Scenario.url2 ∧
    NewConfigByDSN .Background Scenario.dsn2 = (some Scenario.config2, none) ∧
    Scenario.config2.Sentinel.MasterName = "mymaster" ∧
    Scenario.config2.Sentinel.SentinelAddrs = some ["s1:26379", "s2:26379"] ∧
    ∃ cfg, NewConfigByDSN .Background Scenario.dsn2 = (some cfg, none) ∧
      cfg.Sentinel.MasterName = Scenario.url2.Query.Get "master_name" ∧
      ((∀ kv ∈ Scenario.url2.Query, kv.1 ≠ "master_name") → cfg.Sentinel.MasterName = "") ∧
      cfg.Sentinel.SentinelAddrs =
        strings.Split (Scenario.url2.Query.Get "sentinel_addrs") ',' :=
  ⟨rfl, rfl, rfl, rfl,
    C8_sentinel_branch .Background Scenario.dsn2 Scenario.url2 rfl (by decide) (Or.inl rfl)⟩

theorem dbText_congr (u u' : url.URL) (h : u'.Query.Get "db" = u.Query.Get "db") :
    dbText u' = dbText u := by
  unfold dbText
  rw [h]

/-- C9. When a DSN resolves to the Sentinel variant, `SentinelPassword`
equals the main `Password` of the same Config, which is the `password`
query parameter, and a `sentinel_password` query parameter has no effect:
every DSN whose query agrees with this one on all keys but
`sentinel_password` resolves to the same Config. -/
theorem C9_sentinel_password (ctx : context.Context) (dsn : String) (u : url.URL)
    (cfg : Config) (hp : url.Parse dsn = .ok u)
    (hres : NewConfigByDSN ctx dsn = (some cfg, none))
    (hs : u.Query.Get "sentinel_addrs" ≠ "") :
    cfg.Sentinel.SentinelPassword = cfg.Password ∧
    cfg.Password = u.Query.Get "password" ∧
    ∀ (ctx' : context.Context) (dsn' : String) (u' : url.URL), url.Parse dsn' = .ok u' →
      (∀ key, key ≠ "sentinel_password" → u'.Query.Get key = u.Query.Get key) →
      NewConfigByDSN ctx' dsn' = (some cfg, none) := by
  obtain ⟨n, hn, h⟩ := NewConfigByDSN_success ctx dsn u cfg hp hres
  rcases h with ⟨-, rfl⟩ | ⟨h0, -⟩ | ⟨h0, -⟩
  · refine ⟨rfl, rfl, ?_⟩
    intro ctx' dsn' u' hp' hq
    have hdb' : strconv.Atoi (dbText u') = .ok n := by
      rw [dbText_congr u u' (hq "db" (by decide))]
      exact hn
    have hs' : u'.Query.Get "sentinel_addrs" ≠ "" := by
      rw [hq "sentinel_addrs" (by decide)]
      exact hs
    rw [NewConfigByDSN_sentinel ctx' dsn' u' n hp' hdb' hs',
      hq "username" (by decide), hq "password" (by decide), hq "master_name" (by decide),
      hq "sentinel_addrs" (by decide)]
  · exact absurd h0 hs
  · exact absurd h0 hs

theorem Scenario.url2sp_query (key : String) (hk : key ≠ "sentinel_password") :
    Scenario.url2sp.Query.Get key = Scenario.url2.Query.Get key := by
  have h1 : Scenario.url2sp.Query =
      [("sentinel_addrs", "s1:26379,s2:26379"), ("master_name", "mymaster"),
       ("password", "secret"), ("sentinel_password", "other")] := rfl
  have h2 : Scenario.url2.Query =
      [("sentinel_addrs", "s1:26379,s2:26379"), ("master_name", "mymaster"),
       ("password", "secret")] := rfl
  rw [h1, h2]
  have hk' : ¬ "sentinel_password" = key := fun h => hk h.symm
  unfold url.Values.Get
  simp only [List.find?_cons, List.find?_nil]
  by_cases k1 : "sentinel_addrs" = key
  · simp [k1]
  · by_cases k2 : "master_name" = key
    · simp [k1, k2]
    · by_cases k3 : "password" = key
      · simp [k1, k2, k3]
      · simp [k1, k2, k3, hk']

/-- C9, at scenario 2 of the specification and at the same DSN with
`&sentinel_password=other` appended. -/
theorem C9_sentinel_password_witness :
    url.Parse Scenario.dsn2 = .ok Scenario.url2 ∧
    NewConfigByDSN .Background Scenario.dsn2 = (some Scenario.config2, none) ∧
    url.Parse Scenario.dsn2sp = .ok Scenario.url2sp ∧
    Scenario.url2sp.Query.Get "sentinel_password" = "other" ∧
    Scenario.config2.Sentinel.SentinelPassword = "secret" ∧
    Scenario.config2.Password = "secret" ∧
    NewConfigByDSN .Background Scenario.dsn2sp = (some Scenario.config2, none) :=
  have h := C9_sentinel_password .Background Scenario.dsn2 Scenario.url2 Scenario.config2
    rfl rfl (by decide)
  ⟨rfl, rfl, rfl, rfl, h.1.trans rfl, h.2.1.trans rfl,
    h.2.2 .Background Scenario.dsn2sp Scenario.url2sp rfl Scenario.url2sp_query⟩

/-- C10. Standalone fallback: a DSN with a valid `db` in which both
`sentinel_addrs` and `cluster_addrs` are absent or empty resolves, with
`Standalone.Master` equal to the host (`host:port`) of the parsed DSN and,
when `slaves` is non-empty, `Standalone.Slaves` the comma-split of
`slaves`. -/
theorem C10_standalone_fallback (ctx : context.Context) (dsn : String) (u : url.URL)
    (hp : url.Parse dsn = .ok u)
    (hs : u.Query.Get "sentinel_addrs" = "") (hc : u.Query.Get "cluster_addrs" = "")
    (hdb : u.Query.Get "db" = "" ∨ ∃ n, strconv.Atoi (u.Query.Get "db") = .ok n) :
    ∃ cfg, NewConfigByDSN ctx dsn = (some cfg, none) ∧
      cfg.Standalone.Master = u.Host ∧
      (u.Query.Get "slaves" ≠ "" →
        cfg.Standalone.Slaves = strings.Split (u.Query.Get "slaves") ',') := by
  obtain ⟨d, hd⟩ := dbText_valid u hdb
  refine ⟨_, NewConfigByDSN_standalone ctx dsn u d hp hd hs hc, rfl, ?_⟩
  intro hsl
  simp only [hsl, ne_eq, not_false_eq_true, if_true]
  exact Slice_append_Split _ _

/-- C10, at `redis://127.0.0.1:6379` (scenario 1) and at
`redis://127.0.0.1:6379?slaves=r1:6379,r2:6379&db=2`. -/
theorem C10_standalone_fallback_witness :
    url.Parse Scenario.dsn1 = .ok Scenario.url1 ∧
    NewConfigByDSN .Background Scenario.dsn1 =
      (some { Standalone := { Master := "127.0.0.1:6379", Slaves := some [] }, DB := 0 },
        none) ∧
    NewConfigByDSN .Background Scenario.dsn1s =
      (some { Standalone := { Master := "127.0.0.1:6379",
                              Slaves := some ["r1:6379", "r2:6379"] }, DB := 2 }, none) ∧
    (∃ cfg, NewConfigByDSN .Background Scenario.dsn1 = (some cfg, none) ∧
      cfg.Standalone.Master = Scenario.url1.Host ∧
      (Scenario.url1.Query.Get "slaves" ≠ "" →
        cfg.Standalone.Slaves = strings.Split (Scenario.url1.Query.Get "slaves") ',')) ∧
    (∃ cfg, NewConfigByDSN .Background Scenario.dsn1s = (some cfg, none) ∧
      cfg.Standalone.Master = Scenario.url1s.Host ∧
      (Scenario.url1s.Query.Get "slaves" ≠ "" →
        cfg.Standalone.Slaves = strings.Split (Scenario.url1s.Query.Get "slaves") ',')) :=
  ⟨rfl, rfl, rfl,
    C10_standalone_fallback .Background Scenario.dsn1 Scenario.url1 rfl rfl rfl (Or.inl rfl),
    C10_standalone_fallback .Background Scenario.dsn1s Scenario.url1s rfl rfl rfl
      (Or.inr ⟨2, rfl⟩)⟩

/-- C11. When a DSN resolves to the Standalone variant with the `slaves`
parameter absent or empty, `Standalone.Slaves` is present (not nil) and
is the empty list, of length 0. -/
theorem C11_slaves_empty_not_nil (ctx : context.Context) (dsn : String) (u : url.URL)
    (cfg : Config) (hp : url.Parse dsn = .ok u)
    (hres : NewConfigByDSN ctx dsn = (some cfg, none))
    (hs : u.Query.Get "sentinel_addrs" = "") (hc : u.Query.Get "cluster_addrs" = "")
    (hsl : u.Query.Get "slaves" = "") :
    cfg.Standalone.Slaves = some [] ∧ cfg.Standalone.Slaves ≠ none ∧
      cfg.Standalone.Slaves.len = 0 := by
  obtain ⟨n, -, h⟩ := NewConfigByDSN_success ctx dsn u cfg hp hres
  rcases h with ⟨h0, -⟩ | ⟨-, h0, -⟩ | ⟨-, -, rfl⟩
  · exact absurd hs h0
  · exact absurd hc h0
  · simp [hsl, Slice.len]

/-- C11, at `redis://127.0.0.1:6379`. -/
theorem C11_slaves_empty_not_nil_witness :
    url.Parse Scenario.dsn1 = .ok Scenario.url1 ∧
    NewConfigByDSN .Background Scenario.dsn1 = (some Scenario.config1, none) ∧
    Scenario.url1.Query.Get "slaves" = "" ∧
    Scenario.config1.Standalone.Slaves = some [] ∧
    Scenario.config1.Standalone.Slaves ≠ none ∧
    Scenario.config1.Standalone.Slaves.len = 0 :=
  ⟨rfl, rfl, rfl,
    C11_slaves_empty_not_nil .Background Scenario.dsn1 Scenario.url1 Scenario.config1
      rfl rfl rfl rfl rfl⟩

theorem splitLoop_ne_nil (sep : Char) (l cur : List Char) :
    strings.splitLoop sep l cur ≠ [] := by
  induction l generalizing cur with
  | nil => simp [strings.splitLoop]
  | cons c cs ih =>
    unfold strings.splitLoop
    split_ifs
    · simp
    · exact ih _

/-- The pieces of `splitLoop`, joined with the separator, give the text
back; there is one piece more than separators; no piece holds one. -/
theorem splitLoop_spec (sep : Char) (l cur : List Char) (hcur : sep ∉ cur) :
    (∀ p ps, strings.splitLoop sep l cur = p :: ps →
      p ++ strings.joinLoop [sep] ps = cur.reverse ++ l) ∧
    (strings.splitLoop sep l cur).length = l.count sep + 1 ∧
    ∀ p ∈ strings.splitLoop sep l cur, sep ∉ p := by
  induction l generalizing cur with
  | nil =>
    refine ⟨?_, by simp [strings.splitLoop], ?_⟩
    · intro p ps h
      simp only [strings.splitLoop, List.cons.injEq] at h
      obtain ⟨rfl, rfl⟩ := h
      simp [strings.joinLoop]
    · intro p hp
      simp only [strings.splitLoop, List.mem_singleton] at hp
      subst hp
      simpa using hcur
  | cons c cs ih =>
    unfold strings.splitLoop
    by_cases hc : c = sep
    · simp only [hc, if_true]
      have ih' := ih [] (by simp)
      refine ⟨?_, ?_, ?_⟩
      · intro p ps h
        simp only [List.cons.injEq] at h
        obtain ⟨rfl, rfl⟩ := h
        obtain ⟨q, qs, hq⟩ := List.exists_cons_of_ne_nil (splitLoop_ne_nil sep cs [])
        have := ih'.1 q qs hq
        rw [hq]
        simp only [strings.joinLoop, List.reverse_nil, List.nil_append] at this ⊢
        rw [List.append_assoc [sep], this]
        simp
      · simp only [List.length_cons, ih'.2.1, List.count_cons_self]
      · intro p hp
        simp only [List.mem_cons] at hp
        rcases hp with rfl | hp
        · simpa using hcur
        · exact ih'.2.2 p hp
    · simp only [hc, if_false]
      have hc' : sep ∉ c :: cur := by
        simp only [List.mem_cons, not_or]
        exact ⟨fun h => hc h.symm, hcur⟩
      have ih' := ih (c :: cur) hc'
      refine ⟨?_, ?_, ih'.2.2⟩
      · intro p ps h
        rw [ih'.1 p ps h]
        simp
      · rw [ih'.2.1, List.count_cons_of_ne (fun h => hc h.symm)]

/-- What `strings.Split s ','` returns is the comma-separated reading of `s`. -/
theorem Split_isCommaList (s : String) : IsCommaList (strings.Split s ',') s := by
  have h := splitLoop_spec ',' s.data [] (by simp)
  obtain ⟨q, qs, hq⟩ := List.exists_cons_of_ne_nil (splitLoop_ne_nil ',' s.data [])
  refine ⟨(strings.splitLoop ',' s.data []).map String.mk, rfl, ?_, ?_, ?_⟩
  · have := h.1 q qs hq
    rw [hq]
    simp only [strings.Join, List.map_cons, List.map_map]
    have hid : (String.data ∘ String.mk) = id := by
      funext l
      rfl
    simp only [hid, List.map_id]
    rw [this]
    rfl
  · simp only [List.length_map, h.2.1, strings.Count]
  · intro x hx
    simp only [List.mem_map] at hx
    obtain ⟨p, hp, rfl⟩ := hx
    exact h.2.2 p hp

/-- C12. Comma is the only list separator and nothing escapes it: in a
successful result the address list of the selected branch (`sentinel_addrs`,
`cluster_addrs`, or a non-empty `slaves`) is the comma-separated reading of
the parameter text `s`: joined with `","` it gives `s`, it has as many
elements as `s` has commas plus one, and no element holds a comma. -/
theorem C12_comma_separated (ctx : context.Context) (dsn : String) (u : url.URL)
    (cfg : Config) (hp : url.Parse dsn = .ok u)
    (hres : NewConfigByDSN ctx dsn = (some cfg, none)) :
    (u.Query.Get "sentinel_addrs" ≠ "" →
      IsCommaList cfg.Sentinel.SentinelAddrs (u.Query.Get "sentinel_addrs")) ∧
    (u.Query.Get "sentinel_addrs" = "" ∧ u.Query.Get "cluster_addrs" ≠ "" →
      IsCommaList cfg.Cluster.ClusterAddrs (u.Query.Get "cluster_addrs")) ∧
    (u.Query.Get "sentinel_addrs" = "" ∧ u.Query.Get "cluster_addrs" = "" ∧
        u.Query.Get "slaves" ≠ "" →
      IsCommaList cfg.Standalone.Slaves (u.Query.Get "slaves")) := by
  obtain ⟨n, -, h⟩ := NewConfigByDSN_success ctx dsn u cfg hp hres
  rcases h with ⟨hs, rfl⟩ | ⟨hs, hc, m, -, rfl⟩ | ⟨hs, hc, rfl⟩
  · exact ⟨fun _ => Split_isCommaList _, fun h => absurd h.1 hs, fun h => absurd h.1 hs⟩
  · exact ⟨fun h => absurd hs h, fun _ => Split_isCommaList _, fun h => absurd h.2.1 hc⟩
  · refine ⟨fun h => absurd hs h, fun h => absurd hc h.2, ?_⟩
    intro h
    simp only [h.2.2, ne_eq, not_false_eq_true, if_true, Slice_append_Split]
    exact Split_isCommaList _

/-- C12, at `redis://127.0.0.1:6379?slaves=r1:6379,r2:6379&db=2`. -/
theorem C12_comma_separated_witness :
    url.Parse Scenario.dsn1s = .ok Scenario.url1s ∧
    NewConfigByDSN .Background Scenario.dsn1s = (some Scenario.config1s, none) ∧
    Scenario.url1s.Query.Get "slaves" = "r1:6379,r2:6379" ∧
    Scenario.config1s.Standalone.Slaves = some ["r1:6379", "r2:6379"] ∧
    strings.Join ["r1:6379", "r2:6379"] "," = "r1:6379,r2:6379" ∧
    strings.Count "r1:6379,r2:6379" ',' = 1 ∧
    IsCommaList Scenario.config1s.Standalone.Slaves (Scenario.url1s.Query.Get "slaves") :=
  ⟨rfl, rfl, rfl, rfl, rfl, rfl,
    (C12_comma_separated .Background Scenario.dsn1s Scenario.url1s Scenario.config1s
      rfl rfl).2.2 ⟨rfl, rfl, by decide⟩⟩

/-- The result is fixed by the host and by the value `Get` returns for
each key of the query. -/
theorem NewConfigByDSN_congr (ctx ctx' : context.Context) (dsn dsn' : String)
    (u u' : url.URL) (hp : url.Parse dsn = .ok u) (hp' : url.Parse dsn' = .ok u')
    (hh : u'.Host = u.Host) (hq : ∀ key, u'.Query.Get key = u.Query.Get key) :
    NewConfigByDSN ctx' dsn' = NewConfigByDSN ctx dsn := by
  unfold NewConfigByDSN
  simp only [hp, hp', hq, hh]

theorem Scenario.url1e_query (key : String) :
    Scenario.url1e.Query.Get key = Scenario.url1.Query.Get key := by
  have h1 : Scenario.url1e.Query = [("username", ""), ("password", "")] := rfl
  have h2 : Scenario.url1.Query = [] := rfl
  rw [h1, h2]
  unfold url.Values.Get
  simp only [List.find?_cons, List.find?_nil]
  by_cases k1 : "username" = key
  · simp [k1]
  · by_cases k2 : "password" = key
    · simp [k1, k2]
    · simp [k1, k2]

/-- C14. In every successful result, on every branch, `Username` is the
`username` query parameter and `Password` the `password` query parameter,
each the empty string when the parameter is absent; a DSN that differs
only in what `Get` cannot see (a parameter absent or explicitly empty)
resolves to the same Config. -/
theorem C14_username_password (ctx : context.Context) (dsn : String) (u : url.URL)
    (cfg : Config) (hp : url.Parse dsn = .ok u)
    (hres : NewConfigByDSN ctx dsn = (some cfg, none)) :
    cfg.Username = u.Query.Get "username" ∧ cfg.Password = u.Query.Get "password" ∧
    ((∀ kv ∈ u.Query, kv.1 ≠ "username") → cfg.Username = "") ∧
    ((∀ kv ∈ u.Query, kv.1 ≠ "password") → cfg.Password = "") ∧
    (∀ (dsn' : String) (u' : url.URL), url.Parse dsn' = .ok u' → u'.Host = u.Host →
      (∀ key, u'.Query.Get key = u.Query.Get key) →
      NewConfigByDSN ctx dsn' = (some cfg, none)) := by
  have hlast : ∀ (dsn' : String) (u' : url.URL), url.Parse dsn' = .ok u' → u'.Host = u.Host →
      (∀ key, u'.Query.Get key = u.Query.Get key) →
      NewConfigByDSN ctx dsn' = (some cfg, none) := by
    intro dsn' u' hp' hh hq
    rw [NewConfigByDSN_congr ctx ctx dsn dsn' u u' hp hp' hh hq]
    exact hres
  obtain ⟨n, -, h⟩ := NewConfigByDSN_success ctx dsn u cfg hp hres
  have hu : cfg.Username = u.Query.Get "username" ∧ cfg.Password = u.Query.Get "password" := by
    rcases h with ⟨-, rfl⟩ | ⟨-, -, m, -, rfl⟩ | ⟨-, -, rfl⟩ <;> exact ⟨rfl, rfl⟩
  refine ⟨hu.1, hu.2, ?_, ?_, hlast⟩
  · intro ha
    rw [hu.1]
    exact Values_Get_absent _ _ ha
  · intro ha
    rw [hu.2]
    exact Values_Get_absent _ _ ha

/-- C14, at scenario 2 (`password=secret`, no `username`) and at scenario 1
against the same DSN with `username=&password=`. -/
theorem C14_username_password_witness :
    url.Parse Scenario.dsn2 = .ok Scenario.url2 ∧
    NewConfigByDSN .Background Scenario.dsn2 = (some Scenario.config2, none) ∧
    Scenario.config2.Username = "" ∧ Scenario.config2.Password = "secret" ∧
    url.Parse Scenario.dsn1e = .ok Scenario.url1e ∧
    NewConfigByDSN .Background Scenario.dsn1 = (some Scenario.config1, none) ∧
    NewConfigByDSN .Background Scenario.dsn1e = (some Scenario.config1, none) :=
  have h2 := C14_username_password .Background Scenario.dsn2 Scenario.url2 Scenario.config2
    rfl rfl
  have h1 := C14_username_password .Background Scenario.dsn1 Scenario.url1 Scenario.config1
    rfl rfl
  ⟨rfl, rfl, h2.1.trans rfl, h2.2.1.trans rfl, rfl, rfl,
    h1.2.2.2.2 Scenario.dsn1e Scenario.url1e rfl rfl Scenario.url1e_query⟩

theorem NewConfig_of_error (pcs : List errors.Frame) (v : viper.Viper) (o : Config)
    (e : errors.Err) (h : v.UnmarshalKey "redis" {} = (o, some e)) :
    NewConfig pcs v =
      (none, some (.withStack (.withMessage e "unmarshal app option error")
        (errors.callers ⟨"redis.NewConfig", "config.go", 96⟩ pcs))) := by
  unfold NewConfig
  simp only [h, errors.Wrap]

theorem NewConfig_of_ok (pcs : List errors.Frame) (v : viper.Viper) (o : Config)
    (h : v.UnmarshalKey "redis" {} = (o, none)) : NewConfig pcs v = (some o, none) := by
  unfold NewConfig
  simp only [h]

theorem share_NewConfig_of_error (pcs : List errors.Frame) (v : viper.Viper) (o : Config)
    (e : errors.Err) (h : v.UnmarshalKey "redis" {} = (o, some e)) :
    share.NewConfig pcs v =
      (none, some (.withStack (.withMessage e "unmarshal app option error")
        (errors.callers ⟨"redis.NewConfig", "share.go", 20⟩ pcs))) := by
  unfold share.NewConfig
  simp only [h, errors.Wrap]

theorem share_NewConfig_of_ok (pcs : List errors.Frame) (v : viper.Viper) (o : Config)
    (h : v.UnmarshalKey "redis" {} = (o, none)) :
    share.NewConfig pcs v = (some o, none) := by
  unfold share.NewConfig
  simp only [h]

/-- C15. `NewConfig` reads the section keyed `"redis"` and nothing else of
the reader; it returns an error exactly when that decode fails, and then
no Config and an error that wraps the cause: the cause is reached by
unwrapping twice (through the stack layer and the message layer),
`errors.Cause` of the error is that of the cause, and its text is
`unmarshal app option error: ` followed by the unchanged text of the
cause; when the decode succeeds it returns the decoded Config as it is,
whatever topology fields it holds, and a nil error. -/
theorem C15_NewConfig (pcs : List errors.Frame) (v : viper.Viper) :
    (∀ v' : viper.Viper, v'.UnmarshalKey "redis" {} = v.UnmarshalKey "redis" {} →
      NewConfig pcs v' = NewConfig pcs v) ∧
    ((NewConfig pcs v).2 ≠ none ↔ (v.UnmarshalKey "redis" {}).2 ≠ none) ∧
    (∀ cause, (v.UnmarshalKey "redis" {}).2 = some cause →
      ∃ e, NewConfig pcs v = (none, some e) ∧
        e.Unwrap = some (.withMessage cause "unmarshal app option error") ∧
        e.Unwrap.bind errors.Err.Unwrap = some cause ∧
        errors.Cause e = errors.Cause cause ∧
        e.Error = "unmarshal app option error: " ++ cause.Error ∧
        cause.Error.data <:+ e.Error.data) ∧
    (∀ o, v.UnmarshalKey "redis" {} = (o, none) → NewConfig pcs v = (some o, none)) := by
  refine ⟨?_, ?_, ?_, ?_⟩
  · intro v' h
    unfold NewConfig
    simp only [h]
  · rcases hd : v.UnmarshalKey "redis" {} with ⟨o, _ | e⟩
    · simp [NewConfig_of_ok pcs v o hd]
    · simp [NewConfig_of_error pcs v o e hd]
  · intro cause h
    rcases hd : v.UnmarshalKey "redis" {} with ⟨o, _ | e⟩
    · rw [hd] at h
      cases h
    · rw [hd] at h
      injection h with h
      subst h
      exact ⟨_, NewConfig_of_error pcs v o e hd, rfl, rfl, rfl, rfl,
        ⟨"unmarshal app option error: ".data, rfl⟩⟩
  · intro o h
    exact NewConfig_of_ok pcs v o h

/-- C15, at a reader whose section fails to decode and at a reader whose
section holds both Sentinel and Cluster fields. -/
theorem C15_NewConfig_witness :
    NewConfig Scenario.callerStack Scenario.failingReader =
      (none, some (.withStack
        (.withMessage (.cause "cannot parse 'pool_size' as int") "unmarshal app option error")
        [⟨"redis.NewConfig", "config.go", 96⟩, ⟨"main.main", "main.go", 12⟩])) ∧
    (∃ e, NewConfig Scenario.callerStack Scenario.failingReader = (none, some e) ∧
      e.Unwrap = some (.withMessage (.cause "cannot parse 'pool_size' as int")
        "unmarshal app option error") ∧
      e.Unwrap.bind errors.Err.Unwrap = some (.cause "cannot parse 'pool_size' as int") ∧
      errors.Cause e = errors.Cause (.cause "cannot parse 'pool_size' as int") ∧
      e.Error = "unmarshal app option error: " ++
        (errors.Err.cause "cannot parse 'pool_size' as int").Error ∧
      (errors.Err.cause "cannot parse 'pool_size' as int").Error.data <:+ e.Error.data) ∧
    NewConfig Scenario.callerStack Scenario.mixedReader = (some Scenario.mixedConfig, none) ∧
    Scenario.mixedConfig.populatedCount = 2 :=
  ⟨rfl, (C15_NewConfig Scenario.callerStack Scenario.failingReader).2.2.1 _ rfl,
    (C15_NewConfig Scenario.callerStack Scenario.mixedReader).2.2.2 _ rfl, rfl⟩

theorem maxRedirectsText_congr (u u' : url.URL)
    (h : u'.Query.Get "max_redirects" = u.Query.Get "max_redirects") :
    maxRedirectsText u' = maxRedirectsText u := by
  unfold maxRedirectsText
  rw [h]

/-- A DSN that resolves successfully parses as a URL. -/
theorem Parse_of_success (ctx : context.Context) (dsn : String) (cfg : Config)
    (hres : NewConfigByDSN ctx dsn = (some cfg, none)) : ∃ u, url.Parse dsn = .ok u := by
  cases hp : url.Parse dsn with
  | ok u => exact ⟨u, rfl⟩
  | error e =>
    rw [NewConfigByDSN_parse_error ctx dsn e hp] at hres
    cases hres

/-- C16. The two results of `NewConfigByDSN` are exclusive: either the
Config is nil and the error is not, or the Config is not nil and the error
is; a text that `url.Parse` refuses, an invalid `db` and an invalid
`max_redirects` on the cluster branch each give a nil Config with the
error of the failing step. -/
theorem C16_exclusive_results (ctx : context.Context) (dsn : String) :
    (((NewConfigByDSN ctx dsn).1 = none ∧ (NewConfigByDSN ctx dsn).2 ≠ none) ∨
      ((NewConfigByDSN ctx dsn).1 ≠ none ∧ (NewConfigByDSN ctx dsn).2 = none)) ∧
    (∀ e, url.Parse dsn = .error e → NewConfigByDSN ctx dsn = (none, some (.url e))) ∧
    (∀ u e, url.Parse dsn = .ok u → strconv.Atoi (dbText u) = .error e →
      NewConfigByDSN ctx dsn = (none, some (.num e))) ∧
    (∀ u n e, url.Parse dsn = .ok u → strconv.Atoi (dbText u) = .ok n →
      u.Query.Get "sentinel_addrs" = "" → u.Query.Get "cluster_addrs" ≠ "" →
      strconv.Atoi (maxRedirectsText u) = .error e →
      NewConfigByDSN ctx dsn = (none, some (.num e))) := by
  refine ⟨?_, fun e h => NewConfigByDSN_parse_error ctx dsn e h,
    fun u e hp h => NewConfigByDSN_db_error ctx dsn u e hp h,
    fun u n e hp hn hs hc hm => NewConfigByDSN_redirect_error ctx dsn u n e hp hn hs hc hm⟩
  cases hp : url.Parse dsn with
  | error e =>
    rw [NewConfigByDSN_parse_error ctx dsn e hp]
    exact Or.inl ⟨rfl, by simp⟩
  | ok u =>
    cases hn : strconv.Atoi (dbText u) with
    | error e =>
      rw [NewConfigByDSN_db_error ctx dsn u e hp hn]
      exact Or.inl ⟨rfl, by simp⟩
    | ok n =>
      by_cases hs : u.Query.Get "sentinel_addrs" = ""
      · by_cases hc : u.Query.Get "cluster_addrs" = ""
        · rw [NewConfigByDSN_standalone ctx dsn u n hp hn hs hc]
          exact Or.inr ⟨by simp, rfl⟩
        · cases hm : strconv.Atoi (maxRedirectsText u) with
          | error e =>
            rw [NewConfigByDSN_redirect_error ctx dsn u n e hp hn hs hc hm]
            exact Or.inl ⟨rfl, by simp⟩
          | ok m =>
            rw [NewConfigByDSN_cluster ctx dsn u n m hp hn hs hc hm]
            exact Or.inr ⟨by simp, rfl⟩
      · rw [NewConfigByDSN_sentinel ctx dsn u n hp hn hs]
        exact Or.inr ⟨by simp, rfl⟩

/-- C16, at `redis://h:port?db=0`, which `url.Parse` refuses. -/
theorem C16_exclusive_results_witness :
    url.Parse Scenario.badDSN = .error Scenario.badErr ∧
    NewConfigByDSN .Background Scenario.badDSN = (none, some (.url Scenario.badErr)) :=
  ⟨rfl, (C16_exclusive_results .Background Scenario.badDSN).2.1 Scenario.badErr rfl⟩

/-- C17. Exact failure condition: a DSN that parses as a URL fails to
resolve exactly when `db` is non-empty and `Atoi` fails on it, or
`sentinel_addrs` is empty, `cluster_addrs` is non-empty and `max_redirects`
is non-empty and `Atoi` fails on it. -/
theorem C17_failure_condition (ctx : context.Context) (dsn : String) (u : url.URL)
    (hp : url.Parse dsn = .ok u) :
    (NewConfigByDSN ctx dsn).2 ≠ none ↔
      ((u.Query.Get "db" ≠ "" ∧ ∃ e, strconv.Atoi (u.Query.Get "db") = .error e) ∨
       (u.Query.Get "sentinel_addrs" = "" ∧ u.Query.Get "cluster_addrs" ≠ "" ∧
          u.Query.Get "max_redirects" ≠ "" ∧
          ∃ e, strconv.Atoi (u.Query.Get "max_redirects") = .error e)) := by
  cases hn : strconv.Atoi (dbText u) with
  | error e =>
    rw [NewConfigByDSN_db_error ctx dsn u e hp hn]
    have hne : u.Query.Get "db" ≠ "" := by
      intro h0
      rw [dbText_of_empty u h0, Atoi_zero] at hn
      cases hn
    rw [dbText_of_ne u hne] at hn
    simp only [ne_eq, reduceCtorEq, not_false_eq_true, true_iff]
    exact Or.inl ⟨hne, e, hn⟩
  | ok n =>
    have hdb : ¬ (u.Query.Get "db" ≠ "" ∧ ∃ e, strconv.Atoi (u.Query.Get "db") = .error e) := by
      rintro ⟨hne, e, he⟩
      rw [dbText_of_ne u hne, he] at hn
      cases hn
    by_cases hs : u.Query.Get "sentinel_addrs" = ""
    · by_cases hc : u.Query.Get "cluster_addrs" = ""
      · rw [NewConfigByDSN_standalone ctx dsn u n hp hn hs hc]
        simp only [ne_eq, not_true_eq_false, false_iff, not_or]
        exact ⟨hdb, fun h => h.2.1 hc⟩
      · cases hm : strconv.Atoi (maxRedirectsText u) with
        | error e =>
          rw [NewConfigByDSN_redirect_error ctx dsn u n e hp hn hs hc hm]
          have hne : u.Query.Get "max_redirects" ≠ "" := by
            intro h0
            rw [maxRedirectsText_of_empty u h0, Atoi_one] at hm
            cases hm
          rw [maxRedirectsText_of_ne u hne] at hm
          simp only [ne_eq, reduceCtorEq, not_false_eq_true, true_iff]
          exact Or.inr ⟨hs, hc, hne, e, hm⟩
        | ok m =>
          rw [NewConfigByDSN_cluster ctx dsn u n m hp hn hs hc hm]
          simp only [ne_eq, not_true_eq_false, false_iff, not_or]
          refine ⟨hdb, ?_⟩
          rintro ⟨-, -, hne, e, he⟩
          rw [maxRedirectsText_of_ne u hne, he] at hm
          cases hm
    · rw [NewConfigByDSN_sentinel ctx dsn u n hp hn hs]
      simp only [ne_eq, not_true_eq_false, false_iff, not_or]
      exact ⟨hdb, fun h => hs h.1⟩

/-- C17, at `redis://h:6379?db=-1&max_redirects=xyz`: a negative `db` is
accepted and a `max_redirects` that is no integer does not fail a
standalone DSN; the same holds for the sentinel DSN `dsn2x`. -/
theorem C17_failure_condition_witness :
    url.Parse Scenario.dsnNeg = .ok Scenario.urlNeg ∧
    Scenario.urlNeg.Query.Get "max_redirects" = "xyz" ∧
    NewConfigByDSN .Background Scenario.dsnNeg = (some Scenario.configNeg, none) ∧
    Scenario.configNeg.DB = -1 ∧
    Scenario.url2x.Query.Get "max_redirects" = "xyz" ∧
    NewConfigByDSN .Background Scenario.dsn2x = (some Scenario.config2, none) ∧
    ¬ ((Scenario.urlNeg.Query.Get "db" ≠ "" ∧
          ∃ e, strconv.Atoi (Scenario.urlNeg.Query.Get "db") = .error e) ∨
       (Scenario.urlNeg.Query.Get "sentinel_addrs" = "" ∧
          Scenario.urlNeg.Query.Get "cluster_addrs" ≠ "" ∧
          Scenario.urlNeg.Query.Get "max_redirects" ≠ "" ∧
          ∃ e, strconv.Atoi (Scenario.urlNeg.Query.Get "max_redirects") = .error e)) :=
  ⟨rfl, rfl, rfl, rfl, rfl, rfl,
    fun h => (C17_failure_condition .Background Scenario.dsnNeg Scenario.urlNeg rfl).mpr h rfl⟩

/-- C18. Parameters of the branches that are not selected do not influence
the result.  Two DSNs with a non-empty `sentinel_addrs` that agree on `db`,
`username`, `password`, `sentinel_addrs` and `master_name` return equal
results, whatever their host, `cluster_addrs`, `max_redirects` and `slaves`
are; two cluster DSNs (empty `sentinel_addrs`, non-empty `cluster_addrs`)
that agree on `db`, `username`, `password`, `cluster_addrs` and
`max_redirects` return equal results, whatever their host, `master_name`
and `slaves` are. -/
theorem C18_unselected_parameters (ctx ctx' : context.Context) (dsn dsn' : String)
    (u u' : url.URL) (hp : url.Parse dsn = .ok u) (hp' : url.Parse dsn' = .ok u')
    (hdb : u'.Query.Get "db" = u.Query.Get "db")
    (hun : u'.Query.Get "username" = u.Query.Get "username")
    (hpw : u'.Query.Get "password" = u.Query.Get "password") :
    (u.Query.Get "sentinel_addrs" ≠ "" →
      u'.Query.Get "sentinel_addrs" = u.Query.Get "sentinel_addrs" →
      u'.Query.Get "master_name" = u.Query.Get "master_name" →
      NewConfigByDSN ctx' dsn' = NewConfigByDSN ctx dsn) ∧
    (u.Query.Get "sentinel_addrs" = "" → u'.Query.Get "sentinel_addrs" = "" →
      u.Query.Get "cluster_addrs" ≠ "" →
      u'.Query.Get "cluster_addrs" = u.Query.Get "cluster_addrs" →
      u'.Query.Get "max_redirects" = u.Query.Get "max_redirects" →
      NewConfigByDSN ctx' dsn' = NewConfigByDSN ctx dsn) := by
  have hdt := dbText_congr u u' hdb
  constructor
  · intro hs hs' hmn
    have hs2 : u'.Query.Get "sentinel_addrs" ≠ "" := by
      rw [hs']
      exact hs
    cases hn : strconv.Atoi (dbText u) with
    | error e =>
      rw [NewConfigByDSN_db_error ctx dsn u e hp hn,
        NewConfigByDSN_db_error ctx' dsn' u' e hp' (by rw [hdt]; exact hn)]
    | ok n =>
      rw [NewConfigByDSN_sentinel ctx dsn u n hp hn hs,
        NewConfigByDSN_sentinel ctx' dsn' u' n hp' (by rw [hdt]; exact hn) hs2,
        hun, hpw, hs', hmn]
  · intro hs hs' hc hc' hmr
    have hc2 : u'.Query.Get "cluster_addrs" ≠ "" := by
      rw [hc']
      exact hc
    have hmt := maxRedirectsText_congr u u' hmr
    cases hn : strconv.Atoi (dbText u) with
    | error e =>
      rw [NewConfigByDSN_db_error ctx dsn u e hp hn,
        NewConfigByDSN_db_error ctx' dsn' u' e hp' (by rw [hdt]; exact hn)]
    | ok n =>
      cases hm : strconv.Atoi (maxRedirectsText u) with
      | error e =>
        rw [NewConfigByDSN_redirect_error ctx dsn u n e hp hn hs hc hm,
          NewConfigByDSN_redirect_error ctx' dsn' u' n e hp' (by rw [hdt]; exact hn) hs' hc2
            (by rw [hmt]; exact hm)]
      | ok m =>
        rw [NewConfigByDSN_cluster ctx dsn u n m hp hn hs hc hm,
          NewConfigByDSN_cluster ctx' dsn' u' n m hp' (by rw [hdt]; exact hn) hs' hc2
            (by rw [hmt]; exact hm),
          hun, hpw, hc']

/-- C18, at scenario 2 against `dsn2x`, which has another host and adds
`cluster_addrs`, `max_redirects` and `slaves`. -/
theorem C18_unselected_parameters_witness :
    url.Parse Scenario.dsn2 = .ok Scenario.url2 ∧
    url.Parse Scenario.dsn2x = .ok Scenario.url2x ∧
    Scenario.url2x.Host ≠ Scenario.url2.Host ∧
    Scenario.url2x.Query.Get "cluster_addrs" ≠ Scenario.url2.Query.Get "cluster_addrs" ∧
    Scenario.url2x.Query.Get "slaves" ≠ Scenario.url2.Query.Get "slaves" ∧
    NewConfigByDSN .TODO Scenario.dsn2x = NewConfigByDSN .Background Scenario.dsn2 :=
  ⟨rfl, rfl, by decide, by decide, by decide,
    (C18_unselected_parameters .Background .TODO Scenario.dsn2 Scenario.dsn2x Scenario.url2
      Scenario.url2x rfl rfl rfl rfl rfl).1 (by decide) rfl rfl⟩

/-- C19. In every successful result the pool, timeout and read-routing
fields (`PoolSize`, `MinIdleConns`, `IdleTimeout`, `IdleCheckFrequency`,
`MaxConnAge`, `PoolTimeout`, `DialTimeout`, `ReadTimeout`, `WriteTimeout`,
`RouteByLatency`, `RouteRandomly`) and `Cluster.ClusterSlotAddrs` keep
their zero values, whatever query parameters the DSN carries. -/
theorem C19_untouched_fields (ctx : context.Context) (dsn : String) (cfg : Config)
    (hres : NewConfigByDSN ctx dsn = (some cfg, none)) :
    cfg.PoolSize = 0 ∧ cfg.MinIdleConns = 0 ∧ cfg.IdleTimeout = 0 ∧
    cfg.IdleCheckFrequency = 0 ∧ cfg.MaxConnAge = 0 ∧ cfg.PoolTimeout = 0 ∧
    cfg.DialTimeout = 0 ∧ cfg.ReadTimeout = 0 ∧ cfg.WriteTimeout = 0 ∧
    cfg.RouteByLatency = false ∧ cfg.RouteRandomly = false ∧
    cfg.Cluster.ClusterSlotAddrs = none := by
  obtain ⟨u, hp⟩ := Parse_of_success ctx dsn cfg hres
  obtain ⟨n, -, h⟩ := NewConfigByDSN_success ctx dsn u cfg hp hres
  rcases h with ⟨-, rfl⟩ | ⟨-, -, m, -, rfl⟩ | ⟨-, -, rfl⟩ <;>
    exact ⟨rfl, rfl, rfl, rfl, rfl, rfl, rfl, rfl, rfl, rfl, rfl, rfl⟩

/-- C19, at `redis://h:6379?pool_size=50&read_timeout=3&route_randomly=true&db=1`. -/
theorem C19_untouched_fields_witness :
    Scenario.urlPool.Query.Get "pool_size" = "50" ∧
    Scenario.urlPool.Query.Get "route_randomly" = "true" ∧
    NewConfigByDSN .Background Scenario.dsnPool = (some Scenario.configPool, none) ∧
    Scenario.configPool.PoolSize = 0 ∧ Scenario.configPool.ReadTimeout = 0 ∧
    Scenario.configPool.RouteRandomly = false :=
  have h := C19_untouched_fields .Background Scenario.dsnPool Scenario.configPool rfl
  ⟨rfl, rfl, rfl, h.1, h.2.2.2.2.2.2.2.1, h.2.2.2.2.2.2.2.2.2.2.1⟩

/-- C20 as stated fails: on a reader whose section fails to decode the two
declarations of `NewConfig` return different errors, the stack recorded by
`errors.Wrap` starting at config.go:96 for one and at share.go:20 for the
other. -/
theorem C20_counterexample :
    (NewConfig Scenario.callerStack Scenario.failingReader).2 =
      some (.withStack
        (.withMessage (.cause "cannot parse 'pool_size' as int") "unmarshal app option error")
        [⟨"redis.NewConfig", "config.go", 96⟩, ⟨"main.main", "main.go", 12⟩]) ∧
    (share.NewConfig Scenario.callerStack Scenario.failingReader).2 =
      some (.withStack
        (.withMessage (.cause "cannot parse 'pool_size' as int") "unmarshal app option error")
        [⟨"redis.NewConfig", "share.go", 20⟩, ⟨"main.main", "main.go", 12⟩]) ∧
    (NewConfig Scenario.callerStack Scenario.failingReader).2 ≠
      (share.NewConfig Scenario.callerStack Scenario.failingReader).2 :=
  ⟨rfl, rfl, by decide⟩

/-- C20, amended. For every reader and every calling stack the declaration
of `NewConfig` in config.go and the one in share.go return the same
Config, fail together, and when they fail return errors with the same
text, the same message layer and the same cause, which differ only in the
first entry of the recorded call stack (config.go:96 against share.go:20). -/
theorem C20_duplicate_NewConfig (pcs : List errors.Frame) (v : viper.Viper) :
    (NewConfig pcs v).1 = (share.NewConfig pcs v).1 ∧
    ((NewConfig pcs v).2 = none ↔ (share.NewConfig pcs v).2 = none) ∧
    (∀ e e', (NewConfig pcs v).2 = some e → (share.NewConfig pcs v).2 = some e' →
      e.Error = e'.Error ∧ e.Unwrap = e'.Unwrap ∧ errors.Cause e = errors.Cause e' ∧
      ∃ inner,
        e = .withStack inner (errors.callers ⟨"redis.NewConfig", "config.go", 96⟩ pcs) ∧
        e' = .withStack inner (errors.callers ⟨"redis.NewConfig", "share.go", 20⟩ pcs)) := by
  rcases hd : v.UnmarshalKey "redis" {} with ⟨o, _ | c⟩
  · rw [NewConfig_of_ok pcs v o hd, share_NewConfig_of_ok pcs v o hd]
    refine ⟨rfl, Iff.rfl, ?_⟩
    intro e e' h
    cases h
  · rw [NewConfig_of_error pcs v o c hd, share_NewConfig_of_error pcs v o c hd]
    refine ⟨rfl, by simp, ?_⟩
    intro e e' h h'
    injection h with h
    injection h' with h'
    subst h
    subst h'
    exact ⟨rfl, rfl, rfl, _, rfl, rfl⟩

end redis
